import Mathlib

/-!
Knowledge Inbox client: item state, view projection and workflows

A shallow embedding of the client-side state logic of the Knowledge Inbox
frontend (`frontend/src/App.jsx`, `frontend/src/api.js`, and the components
`IngestForm.jsx`, `ItemsList.jsx`, `QueryModal.jsx`, `QueryInterface.jsx`).

Conventions of the embedding:

* JavaScript strings are `String`; every string primitive is defined on the
  underlying character list `String.data`.
* An optional JSON field (`url`, which is `null`, missing or a string) is an
  `Option String`.
* An `async` function is split at its `await`: a `_begin` part runs up to the
  gateway call and a `_resume` part runs from the settled call to the end.
  Both return a `Step`: the component state afterwards, the effects emitted
  in order, and (for `_resume`) how the promise of the function settles.
* A mounted component is an `Instance`: its state and the number of its
  gateway calls in flight. Its events are dispatched one at a time, each
  running its handler; that a disabled submit button delivers no `submit` is
  a condition on the sequence of events (`respectsDisabled`), not on a handler.
* A render that can throw returns an `Except`; the URL constructor, the date
  parser, the clock and the locale date are the fields of a `Host`.
* `String.prototype.toLowerCase` is a parameter `toLowerCase` of the
  functions that call it, so the general theorems hold for every case
  mapping; `asciiLowerCase` is its restriction to ASCII text.
-/

namespace KnowledgeInbox

/-! ## Host string primitives -/

/-- ECMAScript `WhiteSpace` and `LineTerminator` code points: exactly the
characters that `String.prototype.trim` strips from both ends. -/
def isJsWhitespace (c : Char) : Bool :=
  c.toNat == 0x09 || c.toNat == 0x0A || c.toNat == 0x0B || c.toNat == 0x0C ||
  c.toNat == 0x0D || c.toNat == 0x20 || c.toNat == 0xA0 || c.toNat == 0x1680 ||
  (0x2000 ≤ c.toNat && c.toNat ≤ 0x200A) || c.toNat == 0x2028 || c.toNat == 0x2029 ||
  c.toNat == 0x202F || c.toNat == 0x205F || c.toNat == 0x3000 || c.toNat == 0xFEFF

/-- Character-list form of `String.prototype.trim`. -/
def trimChars (cs : List Char) : List Char :=
  ((cs.dropWhile isJsWhitespace).reverse.dropWhile isJsWhitespace).reverse

/-- The method `String.prototype.trim`. -/
def trim (s : String) : String := ⟨trimChars s.data⟩

/-- JavaScript truthiness of a string value: every string but `""`. -/
def truthy (s : String) : Bool := !s.data.isEmpty

/-- Does the pattern occur at the very start of the text? -/
def startsWithChars : List Char → List Char → Bool
  | _, [] => true
  | [], _ :: _ => false
  | c :: cs, p :: ps => c == p && startsWithChars cs ps

/-- Character-list form of `String.prototype.includes`: the pattern occurs at
some position of the text. -/
def includesChars : List Char → List Char → Bool
  | [], pat => pat.isEmpty
  | c :: cs, pat => startsWithChars (c :: cs) pat || includesChars cs pat

/-- The method `String.prototype.includes` (one argument). -/
def includes (s searchString : String) : Bool :=
  includesChars s.data searchString.data

/-- The action of `String.prototype.toLowerCase` on ASCII text: `A`-`Z` go to
`a`-`z`, every other character is kept. -/
def asciiLowerCase (s : String) : String := ⟨s.data.map Char.toLower⟩

/-- A case mapping that acts on ASCII text as `toLowerCase` does. -/
def AsciiFaithful (toLowerCase : String → String) : Prop :=
  ∀ s : String, (∀ c ∈ s.data, c.toNat < 128) → toLowerCase s = asciiLowerCase s

/-- The images of the characters of a text, each taken in its context (the
characters before it and after it), one after the other. -/
def mapInContext (f : List Char → Char → List Char → List Char) :
    List Char → List Char → List Char
  | _, [] => []
  | before, c :: after => f before c after ++ mapInContext f (before ++ [c]) after

/-- A case mapping in the manner of `String.prototype.toLowerCase`, which
lowercases a text code point by code point by the Unicode default case
conversion: the image of a code point may be several code points and may
depend on the text around it (as for the final sigma), and an ASCII code
point has its ASCII lowercase as image whatever surrounds it. -/
def CaseMapping (toLowerCase : String → String) : Prop :=
  ∃ f : List Char → Char → List Char → List Char,
    (∀ s : String, (toLowerCase s).data = mapInContext f [] s.data) ∧
    ∀ (before : List Char) (c : Char) (after : List Char),
      c.toNat < 128 → f before c after = [c.toLower]

/-! ## Data model -/

/-- The wire shape of an item: `{id, content, source_type, url?, timestamp}`. -/
structure Item where
  id : String
  content : String
  source_type : String
  url : Option String
  timestamp : String
deriving DecidableEq, Repr

/-! ## View projection: the filtering effect of `App` (App.jsx, lines 48-69) -/

/-- The callback of the `both` branch:
`item.source_type === 'note' && item.url && item.url.trim().length > 0`. -/
def bothPredicate (item : Item) : Bool :=
  item.source_type == "note" &&
    (match item.url with
     | none => false
     | some u => truthy u && decide ((trim u).length > 0))

/-- The callback of the search stage:
`item.content.toLowerCase().includes(searchQuery.toLowerCase()) ||
 (item.url && item.url.toLowerCase().includes(searchQuery.toLowerCase()))`. -/
def searchPredicate (toLowerCase : String → String) (searchQuery : String) (item : Item) : Bool :=
  includes (toLowerCase item.content) (toLowerCase searchQuery) ||
    (match item.url with
     | none => false
     | some u => truthy u && includes (toLowerCase u) (toLowerCase searchQuery))

/-- The category stage of the filtering effect: the `if / else if` chain on
`filterType`. A `filterType` that is none of `note`, `url`, `both` filters
nothing. -/
def categoryStage (items : List Item) (filterType : String) : List Item :=
  if filterType = "note" then items.filter (fun item => item.source_type == "note")
  else if filterType = "url" then items.filter (fun item => item.source_type == "url")
  else if filterType = "both" then items.filter bothPredicate
  else items

/-- The value the filtering effect passes to `setFilteredItems`: the category
stage followed by the search stage, which runs only when
`searchQuery.trim()` is truthy. -/
def project (toLowerCase : String → String) (items : List Item)
    (filterType searchQuery : String) : List Item :=
  let filtered := categoryStage items filterType
  if truthy (trim searchQuery) then filtered.filter (searchPredicate toLowerCase searchQuery)
  else filtered

/-! ## Remote gateway (api.js) -/

/-- A JSON value, as a response body carries it. A number is kept as what
the client can read of it: whether it is zero, and the decimal text that
`String(...)` gives it. -/
inductive Json where
  | null
  | bool (b : Bool)
  | num (isZero : Bool) (text : String)
  | str (s : String)
  | arr (items : List Json)
  | obj (fields : List (String × Json))

/-- JavaScript truthiness of a JSON value: `null`, `false`, zero and `""` are
falsy, every array and object is truthy. -/
def Json.truthy : Json → Bool
  | Json.null => false
  | Json.bool b => b
  | Json.num isZero _ => !isZero
  | Json.str s => !s.data.isEmpty
  | Json.arr _ => true
  | Json.obj _ => true

mutual
/-- The string conversion `String(v)`, which `new Error(v)` applies to its
argument: a string is itself, an object is `[object Object]`, an array is its
items joined by commas. -/
def Json.toJsString : Json → String
  | Json.null => "null"
  | Json.bool true => "true"
  | Json.bool false => "false"
  | Json.num _ text => text
  | Json.str s => s
  | Json.arr items => Json.joinItems items
  | Json.obj _ => "[object Object]"
/-- The method `Array.prototype.join` with a comma: a `null` item
contributes the empty string. -/
def Json.joinItems : List Json → String
  | [] => ""
  | [Json.null] => ""
  | [x] => Json.toJsString x
  | Json.null :: y :: rest => "," ++ Json.joinItems (y :: rest)
  | x :: y :: rest => Json.toJsString x ++ "," ++ Json.joinItems (y :: rest)
end

/-- What the response interceptor reads from the value an axios call rejects
with: `error.response?.data?.detail`, which is whatever JSON value the body
holds under `detail` (absent when there is no response, no body or no such
field), and `error.message`. -/
structure AxiosError where
  detail : Option Json
  message : String

/-- A JavaScript `Error`; the client reads nothing but its `message`. -/
structure JsError where
  message : String
deriving DecidableEq, Repr

/-- The requests the gateway can issue, one per exported function of api.js. -/
inductive Call where
  | getItems
  | healthCheck
  | deleteItem (itemId : String)
  | ingestContent (content sourceType : String) (url : Option String)
  | queryKnowledge (question : String) (itemId : Option String)
deriving DecidableEq, Repr

/-- The effects a handler has besides updating its component state. -/
inductive Effect where
  | request (call : Call)
  | consoleError (label message : String)
  | alert (text : String)
  | preventDefault
  | onSuccess
deriving DecidableEq, Repr

/-- How the promise of an `async` function stands when a part of it ends. -/
inductive Settled where
  | pending
  | fulfilled
  | rejected (error : JsError)
deriving DecidableEq, Repr

/-- The outcome of running one part of a handler on a component state. -/
structure Step (σ : Type) where
  state : σ
  effects : List Effect
  settled : Settled

/-- The value of the expression
`error.response?.data?.detail || error.message || 'An error occurred'`: the
detail when it is truthy, whatever its type. -/
def errorValue (error : AxiosError) : Json :=
  match error.detail with
  | some d =>
    if d.truthy then d
    else if truthy error.message then Json.str error.message
    else Json.str "An error occurred"
  | none =>
    if truthy error.message then Json.str error.message else Json.str "An error occurred"

/-- The `message` of `new Error(errorMessage)`: the string conversion of the
value of the expression. -/
def errorMessage (error : AxiosError) : String := (errorValue error).toJsString

/-- The rejection handler of the response interceptor: logs the value (kept
here as its string conversion) and rejects with `new Error(errorMessage)`. -/
def responseErrorInterceptor (error : AxiosError) : JsError × List Effect :=
  (⟨errorMessage error⟩, [Effect.consoleError "API Error:" (errorMessage error)])

/-! ## Item store: the state and handlers of `App` (App.jsx) -/

/-- The nine `useState` cells of `App`. -/
structure AppState where
  items : List Item
  filteredItems : List Item
  loading : Bool
  apiStatus : String
  selectedItem : Option Item
  showAddForm : Bool
  filterType : String
  searchQuery : String
  sidebarOpen : Bool
deriving DecidableEq, Repr

/-- The initial values passed to `useState`. -/
def App.init : AppState where
  items := []
  filteredItems := []
  loading := true
  apiStatus := "checking"
  selectedItem := none
  showAddForm := false
  filterType := "all"
  searchQuery := ""
  sidebarOpen := true

/-- The body of the filtering effect, run after a render in which `items`,
`filterType` or `searchQuery` changed. -/
def App.filterEffect (toLowerCase : String → String) (s : AppState) : AppState :=
  { s with filteredItems := project toLowerCase s.items s.filterType s.searchQuery }

/-- Part of `fetchItems` up to `await getItems()`: the request is issued. -/
def App.fetchItems_begin (s : AppState) : Step AppState :=
  ⟨s, [Effect.request Call.getItems], Settled.pending⟩

/-- Part of `fetchItems` after `getItems()` settled: the `try` body on
success, the `catch` body on failure, then `finally`. -/
def App.fetchItems_resume (r : Except JsError (List Item)) (s : AppState) : Step AppState :=
  match r with
  | Except.ok data =>
    ⟨{ s with items := data, filteredItems := data, loading := false }, [], Settled.fulfilled⟩
  | Except.error error =>
    ⟨{ s with loading := false },
      [Effect.consoleError "Failed to fetch items:" error.message], Settled.fulfilled⟩

/-- Part of `checkApiHealth` up to `await healthCheck()`. -/
def App.checkApiHealth_begin (s : AppState) : Step AppState :=
  ⟨s, [Effect.request Call.healthCheck], Settled.pending⟩

/-- Part of `checkApiHealth` after `healthCheck()` settled. -/
def App.checkApiHealth_resume (r : Except JsError Unit) (s : AppState) : Step AppState :=
  match r with
  | Except.ok _ => ⟨{ s with apiStatus := "healthy" }, [], Settled.fulfilled⟩
  | Except.error _ => ⟨{ s with apiStatus := "error" }, [], Settled.fulfilled⟩

/-- The handler `handleIngestSuccess`: `fetchItems()` is started and left
running, then the add form is hidden. -/
def App.handleIngestSuccess (s : AppState) : Step AppState :=
  let f := App.fetchItems_begin s
  ⟨{ f.state with showAddForm := false }, f.effects, Settled.fulfilled⟩

/-- Part of `handleDelete` up to `await deleteItem(itemId)`. -/
def App.handleDelete_begin (itemId : String) (s : AppState) : Step AppState :=
  ⟨s, [Effect.request (Call.deleteItem itemId)], Settled.pending⟩

/-- Part of `handleDelete` after `deleteItem(itemId)` settled: on success
`fetchItems()` is started and not awaited; on failure the `catch` body shows
an alert. -/
def App.handleDelete_resume (r : Except JsError Unit) (s : AppState) : Step AppState :=
  match r with
  | Except.ok _ =>
    let f := App.fetchItems_begin s
    ⟨f.state, f.effects, Settled.fulfilled⟩
  | Except.error error =>
    ⟨s, [Effect.alert ("Failed to delete item: " ++ error.message)], Settled.fulfilled⟩

/-! ## Ingest workflow: the state and handler of `IngestForm` -/

/-- The five `useState` cells of `IngestForm`. -/
structure IngestFormState where
  content : String
  noteUrl : String
  sourceType : String
  loading : Bool
  error : String
deriving DecidableEq, Repr

/-- The initial values passed to `useState`. -/
def IngestForm.init : IngestFormState where
  content := ""
  noteUrl := ""
  sourceType := "note"
  loading := false
  error := ""

/-- Part of `handleSubmit` up to `await ingestContent(...)`: the blank check
returns early; otherwise the request is issued with `loading` set. -/
def IngestForm.handleSubmit_begin (s : IngestFormState) : Step IngestFormState :=
  if !truthy (trim s.content) then
    ⟨{ s with error := "Content cannot be empty" }, [Effect.preventDefault], Settled.fulfilled⟩
  else
    ⟨{ s with loading := true, error := "" },
      [Effect.preventDefault,
       Effect.request (Call.ingestContent s.content s.sourceType
         (if s.sourceType = "note" then some s.noteUrl else none))],
      Settled.pending⟩

/-- Part of `handleSubmit` after `ingestContent(...)` settled; `onSuccess`
tells whether the `onSuccess` prop was given. -/
def IngestForm.handleSubmit_resume (onSuccess : Bool) (r : Except JsError Item)
    (s : IngestFormState) : Step IngestFormState :=
  match r with
  | Except.ok _ =>
    ⟨{ s with content := "", noteUrl := "", loading := false },
      if onSuccess then [Effect.onSuccess] else [], Settled.fulfilled⟩
  | Except.error err =>
    ⟨{ s with error := err.message, loading := false }, [], Settled.fulfilled⟩

/-- The `disabled` attribute of the submit button of `IngestForm`:
`disabled={loading}`. -/
def IngestForm.submitDisabled (s : IngestFormState) : Bool := s.loading

/-! ## Query workflow: the state and handlers of `QueryModal` and `QueryInterface` -/

/-- A cited source of a query result: an item-shaped record whose fields may
be missing. -/
structure Source where
  id : Option String
  content : Option String
  source_type : Option String
  url : Option String
  timestamp : Option String
deriving DecidableEq, Repr

/-- The response body of `POST /query`: `{answer, sources}`. -/
structure QueryResult where
  answer : String
  sources : List Source
deriving DecidableEq, Repr

/-- The four `useState` cells that `QueryModal` and `QueryInterface` both
declare: `question`, `loading`, `error`, `result`. -/
structure QueryState where
  question : String
  loading : Bool
  error : String
  result : Option QueryResult
deriving DecidableEq, Repr

/-- The initial values passed to `useState` in both components. -/
def QueryState.init : QueryState where
  question := ""
  loading := false
  error := ""
  result := none

/-- Part of `handleSubmit` of `QueryModal` up to
`await queryKnowledge(question, item.id)`; `item` is the prop of the modal. -/
def QueryModal.handleSubmit_begin (item : Item) (s : QueryState) : Step QueryState :=
  if !truthy (trim s.question) then
    ⟨{ s with error := "Please enter a question" }, [Effect.preventDefault], Settled.fulfilled⟩
  else
    ⟨{ s with loading := true, error := "", result := none },
      [Effect.preventDefault, Effect.request (Call.queryKnowledge s.question (some item.id))],
      Settled.pending⟩

/-- Part of `handleSubmit` of `QueryInterface` up to
`await queryKnowledge(question)`; `selectedItem` is the prop of the
component, which the handler does not read: the second argument of
`queryKnowledge` takes its default `null`. -/
def QueryInterface.handleSubmit_begin (_selectedItem : Option Item) (s : QueryState) :
    Step QueryState :=
  if !truthy (trim s.question) then
    ⟨{ s with error := "Please enter a question" }, [Effect.preventDefault], Settled.fulfilled⟩
  else
    ⟨{ s with loading := true, error := "", result := none },
      [Effect.preventDefault, Effect.request (Call.queryKnowledge s.question none)],
      Settled.pending⟩

/-- Part of `handleSubmit` after `queryKnowledge(...)` settled; the text is
the same in `QueryModal` and in `QueryInterface`. -/
def Query.handleSubmit_resume (r : Except JsError QueryResult) (s : QueryState) :
    Step QueryState :=
  match r with
  | Except.ok data => ⟨{ s with result := some data, loading := false }, [], Settled.fulfilled⟩
  | Except.error err => ⟨{ s with error := err.message, loading := false }, [], Settled.fulfilled⟩

/-- The effect of `QueryInterface` on `[selectedItem]`, run after a render in
which the prop changed: `if (selectedItem) { setQuestion(''); setResult(null);
setError('') }`. -/
def QueryInterface.selectedItemEffect (selectedItem : Option Item) (s : QueryState) :
    QueryState :=
  match selectedItem with
  | some _ => { s with question := "", result := none, error := "" }
  | none => s

/-- The handler `clearSelection` of `QueryInterface`. -/
def QueryInterface.clearSelection (s : QueryState) : QueryState :=
  { s with question := "", result := none, error := "" }

/-- The `disabled` attribute of the submit button of `QueryModal`:
`disabled={loading || !question.trim()}`. -/
def QueryModal.submitDisabled (s : QueryState) : Bool :=
  s.loading || !truthy (trim s.question)

/-- The `disabled` attribute of the submit button of `QueryInterface`:
`disabled={loading}`. -/
def QueryInterface.submitDisabled (s : QueryState) : Bool := s.loading

/-- The condition under which `App` renders `QueryModal`:
`{selectedItem && <QueryModal item={selectedItem} ... />}`. -/
def App.rendersQueryModal (s : AppState) : Bool := s.selectedItem.isSome

/-! ## The requests on the wire (api.js) -/

/-- A JSON value as the request bodies use them: `null` or a string. -/
inductive JsonValue where
  | null
  | str (s : String)
deriving DecidableEq, Repr

/-- The value of an argument that is a string or `null`. -/
def JsonValue.ofOption : Option String → JsonValue
  | none => JsonValue.null
  | some s => JsonValue.str s

/-- An axios request relative to the base url: method, path and the fields of
the JSON body in the order written. -/
structure HttpRequest where
  method : String
  path : String
  body : List (String × JsonValue)
deriving DecidableEq, Repr

/-- The request each exported function of api.js issues:
`api.post('/ingest', {content, source_type: sourceType, url: url})`,
`api.get('/items')`, `api.post('/query', {question, item_id: itemId})`,
`api.get('/health')` and a `DELETE` on the item path. -/
def Call.toRequest : Call → HttpRequest
  | Call.getItems => ⟨"GET", "/items", []⟩
  | Call.healthCheck => ⟨"GET", "/health", []⟩
  | Call.deleteItem itemId => ⟨"DELETE", "/items/" ++ itemId, []⟩
  | Call.ingestContent content sourceType url =>
    ⟨"POST", "/ingest",
      [("content", JsonValue.str content), ("source_type", JsonValue.str sourceType),
       ("url", JsonValue.ofOption url)]⟩
  | Call.queryKnowledge question itemId =>
    ⟨"POST", "/query",
      [("question", JsonValue.str question), ("item_id", JsonValue.ofOption itemId)]⟩

/-! ## Mounted workflow instances and their events -/

/-- A mounted workflow component: its state and the number of gateway calls
it has issued that have not settled yet. -/
structure Instance (σ : Type) where
  state : σ
  inFlight : Nat

/-- Is the effect a gateway request? -/
def Effect.isRequest : Effect → Bool
  | Effect.request _ => true
  | _ => false

/-- The number of gateway requests among the effects of a step. -/
def requestCount (effects : List Effect) : Nat := (effects.filter Effect.isRequest).length

/-- The events of a mounted `IngestForm`: the `onChange` of the two text
controls, the two source-type buttons, the `submit` of the form, and the
settling of an `ingestContent` call. -/
inductive IngestEvent where
  | setContent (value : String)
  | setNoteUrl (value : String)
  | setSourceType (value : String)
  | submit
  | settle (r : Except JsError Item)

/-- One event on a mounted `IngestForm`: the handler of the event runs on the
current state. No handler reads `loading`, so a `submit` runs `handleSubmit`
in every state; only a `settle` needs a call in flight to settle. -/
def IngestForm.dispatch (onSuccess : Bool) (w : Instance IngestFormState) :
    IngestEvent → Instance IngestFormState
  | IngestEvent.setContent v => { w with state := { w.state with content := v } }
  | IngestEvent.setNoteUrl v => { w with state := { w.state with noteUrl := v } }
  | IngestEvent.setSourceType v => { w with state := { w.state with sourceType := v } }
  | IngestEvent.submit =>
    let k := IngestForm.handleSubmit_begin w.state
    ⟨k.state, w.inFlight + requestCount k.effects⟩
  | IngestEvent.settle r =>
    if w.inFlight = 0 then w
    else
      let k := IngestForm.handleSubmit_resume onSuccess r w.state
      ⟨k.state, w.inFlight - 1 + requestCount k.effects⟩

/-- A freshly mounted `IngestForm`. -/
def IngestForm.mount : Instance IngestFormState := ⟨IngestForm.init, 0⟩

/-- The events of a mounted query component: the `onChange` of the question
input, the `submit` of the form, the settling of a
`queryKnowledge` call, and for `QueryInterface` a change of the
`selectedItem` prop and a click on the clear button. -/
inductive QueryEvent where
  | setQuestion (value : String)
  | submit
  | settle (r : Except JsError QueryResult)
  | itemChanged (selectedItem : Option Item)
  | clearSelection

/-- One event on a mounted `QueryModal` whose prop is `item`: a `submit` runs
`handleSubmit` in every state; the modal has neither an effect on its prop
nor a clear button, so those two events change nothing. -/
def QueryModal.dispatch (item : Item) (w : Instance QueryState) :
    QueryEvent → Instance QueryState
  | QueryEvent.setQuestion v => { w with state := { w.state with question := v } }
  | QueryEvent.submit =>
    let k := QueryModal.handleSubmit_begin item w.state
    ⟨k.state, w.inFlight + requestCount k.effects⟩
  | QueryEvent.settle r =>
    if w.inFlight = 0 then w
    else
      let k := Query.handleSubmit_resume r w.state
      ⟨k.state, w.inFlight - 1 + requestCount k.effects⟩
  | QueryEvent.itemChanged _ => w
  | QueryEvent.clearSelection => w

/-- One event on a mounted `QueryInterface` rendered with the prop
`selectedItem`: a `submit` runs `handleSubmit` in every state; the clear
button is rendered only when that prop is an item. -/
def QueryInterface.dispatch (selectedItem : Option Item) (w : Instance QueryState) :
    QueryEvent → Instance QueryState
  | QueryEvent.setQuestion v => { w with state := { w.state with question := v } }
  | QueryEvent.submit =>
    let k := QueryInterface.handleSubmit_begin selectedItem w.state
    ⟨k.state, w.inFlight + requestCount k.effects⟩
  | QueryEvent.settle r =>
    if w.inFlight = 0 then w
    else
      let k := Query.handleSubmit_resume r w.state
      ⟨k.state, w.inFlight - 1 + requestCount k.effects⟩
  | QueryEvent.itemChanged sel =>
    { w with state := QueryInterface.selectedItemEffect sel w.state }
  | QueryEvent.clearSelection =>
    match selectedItem with
    | some _ => { w with state := QueryInterface.clearSelection w.state }
    | none => w

/-- A freshly mounted query component. -/
def Query.mount : Instance QueryState := ⟨QueryState.init, 0⟩

/-- A whole submission of `IngestForm`: `handleSubmit` resumed with the
settled call on the state its first part left. -/
def IngestForm.resolved (onSuccess : Bool) (r : Except JsError Item) (s : IngestFormState) :
    Step IngestFormState :=
  IngestForm.handleSubmit_resume onSuccess r (IngestForm.handleSubmit_begin s).state

/-- A whole submission of `QueryModal`. -/
def QueryModal.resolved (item : Item) (r : Except JsError QueryResult) (s : QueryState) :
    Step QueryState :=
  Query.handleSubmit_resume r (QueryModal.handleSubmit_begin item s).state

/-- A whole submission of `QueryInterface`. -/
def QueryInterface.resolved (selectedItem : Option Item) (r : Except JsError QueryResult)
    (s : QueryState) : Step QueryState :=
  Query.handleSubmit_resume r (QueryInterface.handleSubmit_begin selectedItem s).state

/-- The instance a freshly mounted `IngestForm` reaches by a sequence of events. -/
def IngestForm.run (onSuccess : Bool) (events : List IngestEvent) : Instance IngestFormState :=
  events.foldl (IngestForm.dispatch onSuccess) IngestForm.mount

/-- The instance a freshly mounted `QueryModal` reaches by a sequence of events. -/
def QueryModal.run (item : Item) (events : List QueryEvent) : Instance QueryState :=
  events.foldl (QueryModal.dispatch item) Query.mount

/-- The instance a freshly mounted `QueryInterface` reaches by a sequence of events. -/
def QueryInterface.run (selectedItem : Option Item) (events : List QueryEvent) :
    Instance QueryState :=
  events.foldl (QueryInterface.dispatch selectedItem) Query.mount

/-- Is the event the `submit` of the form? -/
def IngestEvent.isSubmit : IngestEvent → Bool
  | IngestEvent.submit => true
  | _ => false

/-- Is the event the `submit` of the form? -/
def QueryEvent.isSubmit : QueryEvent → Bool
  | QueryEvent.submit => true
  | _ => false

/-- A sequence of events of an `IngestForm`, starting at `w`, in which no
`submit` is delivered while the submit button is disabled. -/
def IngestForm.respectsDisabled (onSuccess : Bool) :
    Instance IngestFormState → List IngestEvent → Bool
  | _, [] => true
  | w, ev :: rest =>
    !(ev.isSubmit && IngestForm.submitDisabled w.state) &&
      IngestForm.respectsDisabled onSuccess (IngestForm.dispatch onSuccess w ev) rest

/-- A sequence of events of a `QueryModal`, starting at `w`, in which no
`submit` is delivered while the submit button is disabled. -/
def QueryModal.respectsDisabled (item : Item) : Instance QueryState → List QueryEvent → Bool
  | _, [] => true
  | w, ev :: rest =>
    !(ev.isSubmit && QueryModal.submitDisabled w.state) &&
      QueryModal.respectsDisabled item (QueryModal.dispatch item w ev) rest

/-- A sequence of events of a `QueryInterface`, starting at `w`, in which no
`submit` is delivered while the submit button is disabled. -/
def QueryInterface.respectsDisabled (selectedItem : Option Item) :
    Instance QueryState → List QueryEvent → Bool
  | _, [] => true
  | w, ev :: rest =>
    !(ev.isSubmit && QueryInterface.submitDisabled w.state) &&
      QueryInterface.respectsDisabled selectedItem
        (QueryInterface.dispatch selectedItem w ev) rest

/-- The single-flight relation between `loading` and the calls in flight of
an `IngestForm`. -/
def IngestForm.SingleFlight (w : Instance IngestFormState) : Prop :=
  (w.state.loading = true ∧ w.inFlight = 1) ∨ (w.state.loading = false ∧ w.inFlight = 0)

/-- The single-flight relation between `loading` and the calls in flight of a
query component. -/
def Query.SingleFlight (w : Instance QueryState) : Prop :=
  (w.state.loading = true ∧ w.inFlight = 1) ∨ (w.state.loading = false ∧ w.inFlight = 0)

/-! ## Item list view: `ItemsList` and the links of the query views -/

deriving instance DecidableEq for Except

/-- The host functions the views call. `hostname u` is `new URL(u).hostname`,
which throws a `TypeError` when `u` does not parse as a URL; `dateParse ts` is
`new Date(ts).getTime()` in milliseconds, absent when it is `NaN`; `now` is
`new Date().getTime()` at the time of the render; `toLocaleDateString` is the
method of that name on a valid date. Time values are integers, and the
differences and quotients `formatDate` forms from them are exact in double
precision up to the seven-day bound, beyond which only their order matters. -/
structure Host where
  hostname : String → Except JsError String
  dateParse : String → Option Int
  now : Int
  toLocaleDateString : Int → String

/-- The function `formatDate` of `ItemsList`. A `timestamp` that is `null`,
missing or `""` is falsy. The three `Math.floor` quotients are taken after
the early return for a negative difference. -/
def ItemsList.formatDate (host : Host) (timestamp : Option String) : String :=
  match timestamp with
  | none => ""
  | some ts =>
    if !truthy ts then ""
    else
      match host.dateParse ts with
      | none => "Invalid date"
      | some date =>
        let diffMs : Int := host.now - date
        if diffMs < 0 then "Just now"
        else
          let diffMins : Nat := diffMs.toNat / 60000
          let diffHours : Nat := diffMs.toNat / 3600000
          let diffDays : Nat := diffMs.toNat / 86400000
          if diffMins < 1 then "Just now"
          else if diffMins < 60 then toString diffMins ++ "m ago"
          else if diffHours < 24 then toString diffHours ++ "h ago"
          else if diffDays < 7 then toString diffDays ++ "d ago"
          else host.toLocaleDateString date

/-- The link under an item card: its `href`, the text of its first span, and
for a note the span that shows the hostname in parentheses. -/
structure UrlBlock where
  href : String
  label : String
  hostnameNote : Option String
deriving DecidableEq, Repr

/-- The block `{item.url && (...)}` of an item card (ItemsList.jsx, lines
96-116): nothing for a falsy url; otherwise `new URL(item.url).hostname` is
evaluated, as the label of a url item or as the parenthesised span of a note. -/
def ItemsList.urlBlock (host : Host) (item : Item) : Except JsError (Option UrlBlock) :=
  match item.url with
  | none => Except.ok none
  | some u =>
    if truthy u then
      if item.source_type = "note" then
        match host.hostname u with
        | Except.ok h => Except.ok (some ⟨u, "Reference Link", some ("(" ++ h ++ ")")⟩)
        | Except.error e => Except.error e
      else
        match host.hostname u with
        | Except.ok h => Except.ok (some ⟨u, h, none⟩)
        | Except.error e => Except.error e
    else Except.ok none

/-- The texts of one item card, in the order the JSX builds them. -/
structure ItemCard where
  key : String
  badge : String
  body : String
  urlBlock : Option UrlBlock
  date : String
deriving DecidableEq, Repr

/-- The card of one item: an exception thrown while the url block is built
leaves no card. -/
def ItemsList.card (host : Host) (item : Item) : Except JsError ItemCard :=
  match ItemsList.urlBlock host item with
  | Except.ok block =>
    Except.ok
      ⟨item.id,
       if item.source_type = "url" then "Web Page" else "Note",
       if item.source_type = "url" then "CONTENT INDEXED FOR AI" else item.content,
       block,
       ItemsList.formatDate host (some item.timestamp)⟩
  | Except.error e => Except.error e

/-- The cards of a list of items, built left to right as `items.map` does;
the first exception ends the whole map. -/
def ItemsList.cards (host : Host) : List Item → Except JsError (List ItemCard)
  | [] => Except.ok []
  | item :: rest =>
    match ItemsList.card host item with
    | Except.error e => Except.error e
    | Except.ok c =>
      match ItemsList.cards host rest with
      | Except.error e => Except.error e
      | Except.ok cs => Except.ok (c :: cs)

/-- What `ItemsList` returns: the spinner, the empty notice, or the cards. -/
inductive ItemsListView where
  | loading
  | empty
  | cards (cs : List ItemCard)
deriving DecidableEq, Repr

/-- The render of `ItemsList`. -/
def ItemsList.render (host : Host) (items : List Item) (loading : Bool) :
    Except JsError ItemsListView :=
  if loading then Except.ok ItemsListView.loading
  else if items.isEmpty then Except.ok ItemsListView.empty
  else
    match ItemsList.cards host items with
    | Except.ok cs => Except.ok (ItemsListView.cards cs)
    | Except.error e => Except.error e

/-- The expression `{x.url && (<a ...>{new URL(x.url).hostname}</a>)}` that
`QueryModal` uses for its item and for each source, and `QueryInterface` for
each source: no link for a falsy url, otherwise the hostname. -/
def Query.hostnameLink (host : Host) (url : Option String) : Except JsError (Option String) :=
  match url with
  | none => Except.ok none
  | some u =>
    if truthy u then
      match host.hostname u with
      | Except.ok h => Except.ok (some h)
      | Except.error e => Except.error e
    else Except.ok none

/-- The links of the sources of a result, built left to right as
`result.sources.map` does. -/
def Query.sourceLinks (host : Host) : List Source → Except JsError (List (Option String))
  | [] => Except.ok []
  | source :: rest =>
    match Query.hostnameLink host source.url with
    | Except.error e => Except.error e
    | Except.ok l =>
      match Query.sourceLinks host rest with
      | Except.error e => Except.error e
      | Except.ok ls => Except.ok (l :: ls)

/-- The links of a result: none when there is no result. -/
def Query.resultLinks (host : Host) (result : Option QueryResult) :
    Except JsError (List (Option String)) :=
  match result with
  | none => Except.ok []
  | some r => Query.sourceLinks host r.sources

/-- The hostnames the render of `QueryModal` derives, in the order of the
JSX: the link of its item, then the links of the sources of the result. An
exception thrown by one of them is thrown by the render. -/
def QueryModal.renderLinks (host : Host) (item : Item) (s : QueryState) :
    Except JsError (Option String × List (Option String)) :=
  match Query.hostnameLink host item.url with
  | Except.error e => Except.error e
  | Except.ok l =>
    match Query.resultLinks host s.result with
    | Except.error e => Except.error e
    | Except.ok ls => Except.ok (l, ls)

/-- The hostnames the render of `QueryInterface` derives: the links of the
sources of the result (the selected item is shown without a link). -/
def QueryInterface.renderLinks (host : Host) (s : QueryState) :
    Except JsError (List (Option String)) :=
  Query.resultLinks host s.result

/-! ## The mounted `App` and its events -/

/-- A mounted `App` between two events: its state, and whether `items`,
`filterType` or `searchQuery` changed in a render whose filtering effect has
not run yet. -/
structure AppInstance where
  state : AppState
  filterEffectDue : Bool
deriving DecidableEq, Repr

/-- The events of a mounted `App`. The settling of a gateway call is an event
of its own, so calls settle in any order. -/
inductive AppEvent where
  | healthTick
  | healthSettled (r : Except JsError Unit)
  | getItemsSettled (r : Except JsError (List Item))
  | ingestSucceeded
  | deleteConfirmed (itemId : String)
  | deleteSettled (r : Except JsError Unit)
  | setFilterType (id : String)
  | setSearchQuery (value : String)
  | clearFilters
  | setSelectedItem (item : Option Item)
  | setShowAddForm (value : Bool)
  | toggleSidebar
  | filterEffect

/-- One event on a mounted `App`. A state setter called with a new value of
`items`, `filterType` or `searchQuery` makes the filtering effect due; the
response array of `getItems` is always a new value. The filter buttons offer
the four ids `all`, `note`, `url`, `both`, and the clear button is rendered
only when `filterType !== 'all' || searchQuery`. -/
def App.dispatch (toLowerCase : String → String) (w : AppInstance) : AppEvent → AppInstance
  | AppEvent.healthTick => { w with state := (App.checkApiHealth_begin w.state).state }
  | AppEvent.healthSettled r => { w with state := (App.checkApiHealth_resume r w.state).state }
  | AppEvent.getItemsSettled r =>
    match r with
    | Except.ok data => ⟨(App.fetchItems_resume (Except.ok data) w.state).state, true⟩
    | Except.error e =>
      ⟨(App.fetchItems_resume (Except.error e) w.state).state, w.filterEffectDue⟩
  | AppEvent.ingestSucceeded => { w with state := (App.handleIngestSuccess w.state).state }
  | AppEvent.deleteConfirmed itemId =>
    { w with state := (App.handleDelete_begin itemId w.state).state }
  | AppEvent.deleteSettled r => { w with state := (App.handleDelete_resume r w.state).state }
  | AppEvent.setFilterType id =>
    if id = "all" ∨ id = "note" ∨ id = "url" ∨ id = "both" then
      ⟨{ w.state with filterType := id },
        w.filterEffectDue || decide (id ≠ w.state.filterType)⟩
    else w
  | AppEvent.setSearchQuery value =>
    ⟨{ w.state with searchQuery := value },
      w.filterEffectDue || decide (value ≠ w.state.searchQuery)⟩
  | AppEvent.clearFilters =>
    if w.state.filterType ≠ "all" ∨ truthy w.state.searchQuery = true then
      ⟨{ w.state with filterType := "all", searchQuery := "" },
        w.filterEffectDue || decide (w.state.filterType ≠ "all") ||
          decide (w.state.searchQuery ≠ "")⟩
    else w
  | AppEvent.setSelectedItem item => { w with state := { w.state with selectedItem := item } }
  | AppEvent.setShowAddForm value => { w with state := { w.state with showAddForm := value } }
  | AppEvent.toggleSidebar =>
    { w with state := { w.state with sidebarOpen := !w.state.sidebarOpen } }
  | AppEvent.filterEffect =>
    if w.filterEffectDue then ⟨App.filterEffect toLowerCase w.state, false⟩ else w

/-- The mounted `App` after its mount effects ran: `checkApiHealth()` and
`fetchItems()` are started, and the filtering effect ran on the initial state. -/
def App.mount (toLowerCase : String → String) : AppInstance :=
  ⟨App.filterEffect toLowerCase
    (App.fetchItems_begin (App.checkApiHealth_begin App.init).state).state, false⟩

/-- The instance a mounted `App` reaches by a sequence of events. -/
def App.run (toLowerCase : String → String) (events : List AppEvent) : AppInstance :=
  events.foldl (App.dispatch toLowerCase) (App.mount toLowerCase)

/-- The collection after a sequence of `getItems` calls settled, in the order
in which they settled, on a state `s`. -/
def App.settleAll (rs : List (Except JsError (List Item))) (s : AppState) : AppState :=
  rs.foldl (fun st r => (App.fetchItems_resume r st).state) s

/-- The filtering effect is in step: whenever it is not due, the displayed
list is the projection of the state. -/
def App.InStep (toLowerCase : String → String) (w : AppInstance) : Prop :=
  w.filterEffectDue = false →
    w.state.filteredItems =
      project toLowerCase w.state.items w.state.filterType w.state.searchQuery

/-! ## Specification-side notions -/

/-- Specification wording: text `t` contains
pattern `p` as a substring. -/
def specContains (t p : String) : Prop :=
  ∃ a b : List Char, t.data = a ++ p.data ++ b

/-- Specification wording: `t` contains `p` as a
substring ignoring letter case, that is, after both are lowercased. -/
def specContainsIgnoringCase (toLowerCase : String → String) (t p : String) : Prop :=
  specContains (toLowerCase t) (toLowerCase p)

/-- Specification wording: a string is blank when
it is empty or consists of whitespace only. -/
def specBlank (s : String) : Prop := ∀ c ∈ s.data, isJsWhitespace c = true

/-- Specification wording: the data of the most recently resolved successful
call among a sequence of resolutions, if there is one. -/
def specLastSuccess : List (Except JsError (List Item)) → Option (List Item)
  | [] => none
  | r :: rest =>
    match specLastSuccess rest with
    | some D => some D
    | none =>
      match r with
      | Except.ok D => some D
      | Except.error _ => none

/-- Specification wording: the data of the most recently resolved successful
refresh among the events of an `App`, if there is one. -/
def specLastRefresh : List AppEvent → Option (List Item)
  | [] => none
  | ev :: rest =>
    match specLastRefresh rest with
    | some D => some D
    | none =>
      match ev with
      | AppEvent.getItemsSettled (Except.ok D) => some D
      | _ => none

/-- Specification wording: a locale date is a plain date text: it is neither
`Just now` nor a text that ends in ` ago`. -/
def specPlainDate (text : String) : Prop :=
  text ≠ "Just now" ∧ ∀ pre : String, text ≠ pre ++ " ago"

/-! ## Sample data of the end-to-end scenarios -/

/-- A note whose content is `say hello`. -/
def sampleHello : Item := ⟨"1", "say hello", "note", none, "2024-01-01T10:00:00"⟩

/-- A note without url whose content is `goodbye`. -/
def sampleGoodbye : Item := ⟨"2", "goodbye", "note", none, "2024-01-01T11:00:00"⟩

/-- A url item whose content contains `Shopping list`. -/
def sampleShopping : Item :=
  ⟨"3", "Shopping list: milk, eggs", "url", some "https://example.com/list", "2024-01-02T09:00:00"⟩

/-- A url item whose content contains `Shopping list` next to text that is
not ASCII. -/
def sampleCafeList : Item :=
  ⟨"7", "Ma liste – Shopping list: café, crème brûlée", "url",
    some "https://example.com/liste", "2024-01-03T09:00:00"⟩

/-- The item `createItem` returns in scenario A. -/
def sampleMilk : Item := ⟨"1", "Buy milk", "note", none, "T"⟩

/-- An `App` state showing the one item of scenario A, nothing loading. -/
def sampleAppState : AppState :=
  { App.init with items := [sampleMilk], filteredItems := [sampleMilk], loading := false }

/-- The rejection of `DELETE /items/1` in scenario D: a 404 response whose
body carries `detail = "not found"`. -/
def sampleNotFound : AxiosError :=
  ⟨some (Json.str "not found"), "Request failed with status code 404"⟩

/-- The rejection of a request whose body fails validation: a 422 response
whose `detail` is a list with one error object. -/
def sampleValidationError : AxiosError :=
  ⟨some (Json.arr [Json.obj [("loc", Json.arr [Json.str "body", Json.str "content"]),
      ("msg", Json.str "field required"), ("type", Json.str "value_error.missing")]]),
    "Request failed with status code 422"⟩

/-- A rejection whose `detail` is the empty list. -/
def sampleEmptyListDetail : AxiosError :=
  ⟨some (Json.arr []), "Request failed with status code 422"⟩

/-- A rejection whose `detail` is the empty string. -/
def sampleEmptyDetail : AxiosError := ⟨some (Json.str ""), "Network Error"⟩

/-- An ingest form whose content holds blanks only, with a reference url typed in. -/
def sampleBlankForm : IngestFormState :=
  { IngestForm.init with content := "  \t ", noteUrl := "https://example.com" }

/-- The ingest form of a note with a reference url typed in. -/
def sampleNoteForm : IngestFormState :=
  { IngestForm.init with content := "Buy milk", noteUrl := "https://example.com/shop" }

/-- The ingest form switched to `url` after a reference url had been typed in. -/
def sampleUrlForm : IngestFormState :=
  { IngestForm.init with
    content := "https://example.com/page", noteUrl := "https://example.com/shop",
    sourceType := "url" }

/-- The response of scenario C: the answer `Milk` citing one source. -/
def sampleAnswer : QueryResult :=
  ⟨"Milk", [⟨some "1", some "Buy milk", some "note", none, some "T"⟩]⟩

/-- A query state in which the question of scenario C is typed in. -/
def sampleAsking : QueryState := { QueryState.init with question := "What did I buy?" }

/-- A query state showing the answer of scenario C, with a new question typed in. -/
def sampleAnswered : QueryState :=
  ⟨"How much did it cost?", false, "", some sampleAnswer⟩

/-- A query state whose question holds blanks only, showing the answer of scenario C. -/
def sampleBlankQuestion : QueryState := ⟨"   ", false, "", some sampleAnswer⟩

/-- The text that follows the first `://` of a string. -/
def afterScheme : List Char → List Char
  | [] => []
  | c :: rest =>
    if startsWithChars (c :: rest) "://".data then rest.drop 2 else afterScheme rest

/-- A stand-in for the host in the examples. Its URL constructor rejects a
string without a colon, as the host does for want of a scheme, and otherwise
takes the text between `://` and the next `/`, which is the hostname of the
plain `https` URLs used here. Its clock stands five minutes after the
timestamp of `sampleHello`, the only timestamp it can parse. -/
def sampleHost : Host where
  hostname := fun u =>
    if u.data.contains ':' then
      Except.ok ⟨(afterScheme u.data).takeWhile (fun c => c != '/')⟩
    else Except.error ⟨"Invalid URL"⟩
  dateParse := fun ts => if ts = "2024-01-01T10:00:00" then some 1704103200000 else none
  now := 1704103500000
  toLocaleDateString := fun _ => "1/1/2024"

/-- A note whose reference url was typed without a scheme. -/
def sampleBadUrlNote : Item :=
  ⟨"4", "Buy milk", "note", some "example.com", "2024-01-01T10:00:00"⟩

/-- A note with a reference url that parses. -/
def sampleLinkedNote : Item :=
  ⟨"5", "Buy eggs", "note", some "https://example.com/shop", "2024-01-01T10:00:00"⟩

/-- A query state whose result cites a source with a url that does not parse. -/
def sampleBadSourceState : QueryState :=
  ⟨"What did I buy?", false, "",
    some ⟨"Milk", [⟨some "4", some "Buy milk", some "note", some "example.com", some "T"⟩]⟩⟩

/-- A note without url whose content is `hello`. -/
def sampleHelloOnly : Item := ⟨"6", "hello", "note", none, "2024-01-01T10:00:00"⟩

/-- The events of a refresh that succeeds while the `note` filter is active. -/
def sampleFilteredRefresh : List AppEvent :=
  [AppEvent.setFilterType "note", AppEvent.filterEffect,
   AppEvent.getItemsSettled (Except.ok [sampleHello, sampleShopping])]

/-- A timestamp the sample host cannot parse. -/
def sampleBadTimestamp : String := "yesterday"

/-- A second `submit` delivered to an `IngestForm` while the first call is in flight. -/
def sampleDoubleSubmit : List IngestEvent :=
  [IngestEvent.setContent "Buy milk", IngestEvent.submit, IngestEvent.submit]

/-- A second `submit` delivered to a query component while the first call is in flight. -/
def sampleDoubleAsk : List QueryEvent :=
  [QueryEvent.setQuestion "What did I buy?", QueryEvent.submit, QueryEvent.submit]

/-- Two submissions of an `IngestForm`, the second after the first has settled. -/
def sampleTwoIngests : List IngestEvent :=
  [IngestEvent.setContent "Buy milk", IngestEvent.submit,
   IngestEvent.settle (Except.ok sampleMilk),
   IngestEvent.setContent "Buy eggs", IngestEvent.submit]

/-! ## Lemmas on the string primitives -/

theorem trimChars_eq_nil_iff (cs : List Char) :
    trimChars cs = [] ↔ ∀ c ∈ cs, isJsWhitespace c = true := by
  unfold trimChars
  rw [List.reverse_eq_nil_iff, List.dropWhile_eq_nil_iff]
  constructor
  · intro h
    have h2 : cs.dropWhile isJsWhitespace = [] := by
      by_contra hne
      have hhead := List.head_dropWhile_not isJsWhitespace cs hne
      have hmem : (cs.dropWhile isJsWhitespace).head hne ∈
          (cs.dropWhile isJsWhitespace).reverse :=
        List.mem_reverse.mpr (List.head_mem hne)
      have := h _ hmem
      simp [hhead] at this
    exact List.dropWhile_eq_nil_iff.mp h2
  · intro h
    have h2 : cs.dropWhile isJsWhitespace = [] := List.dropWhile_eq_nil_iff.mpr h
    simp [h2]

theorem truthy_trim_eq_false_iff (s : String) :
    truthy (trim s) = false ↔ specBlank s := by
  unfold truthy trim specBlank
  simp only [Bool.not_eq_false_eq_eq_true, List.isEmpty_iff]
  exact trimChars_eq_nil_iff s.data

theorem truthy_trim_eq_true_iff (s : String) :
    truthy (trim s) = true ↔ ¬ specBlank s := by
  rw [← truthy_trim_eq_false_iff]
  simp

theorem startsWithChars_iff (t p : List Char) :
    startsWithChars t p = true ↔ ∃ b, t = p ++ b := by
  induction t generalizing p with
  | nil =>
    cases p with
    | nil => simp [startsWithChars]
    | cons q qs => simp [startsWithChars]
  | cons c cs ih =>
    cases p with
    | nil => simp [startsWithChars]
    | cons q qs => simp [startsWithChars, ih]

theorem includesChars_iff (t p : List Char) :
    includesChars t p = true ↔ ∃ a b, t = a ++ p ++ b := by
  induction t with
  | nil =>
    cases p with
    | nil => simp [includesChars]
    | cons q qs => simp [includesChars]
  | cons c cs ih =>
    simp only [includesChars, Bool.or_eq_true, startsWithChars_iff, ih]
    constructor
    · rintro (⟨b, hb⟩ | ⟨a, b, hab⟩)
      · exact ⟨[], b, by simpa using hb⟩
      · exact ⟨c :: a, b, by simp [hab]⟩
    · rintro ⟨a, b, hab⟩
      cases a with
      | nil => exact Or.inl ⟨b, by simpa using hab⟩
      | cons x xs =>
        simp only [List.cons_append, List.cons.injEq] at hab
        exact Or.inr ⟨xs, b, hab.2⟩

theorem includes_iff (t p : String) : includes t p = true ↔ specContains t p :=
  includesChars_iff t.data p.data

/-! ## Lemmas on the projection -/

theorem categoryStage_sublist (C : List Item) (cat : String) :
    List.Sublist (categoryStage C cat) C := by
  unfold categoryStage
  split_ifs
  · exact List.filter_sublist C
  · exact List.filter_sublist C
  · exact List.filter_sublist C
  · exact List.Sublist.refl C

theorem project_of_blank (toLowerCase : String → String) (C : List Item) (cat s : String)
    (h : specBlank s) : project toLowerCase C cat s = categoryStage C cat := by
  have hb := (truthy_trim_eq_false_iff s).mpr h
  simp [project, hb]

theorem project_of_not_blank (toLowerCase : String → String) (C : List Item) (cat s : String)
    (h : ¬ specBlank s) :
    project toLowerCase C cat s =
      (categoryStage C cat).filter (searchPredicate toLowerCase s) := by
  have hb := (truthy_trim_eq_true_iff s).mpr h
  simp [project, hb]

theorem specBlank_empty : specBlank "" := by
  intro c hc
  simp at hc

theorem searchPredicate_iff (toLowerCase : String → String) (s : String) (item : Item) :
    searchPredicate toLowerCase s item = true ↔
      (specContainsIgnoringCase toLowerCase item.content s ∨
        ∃ u, item.url = some u ∧ u ≠ "" ∧ specContainsIgnoringCase toLowerCase u s) := by
  unfold searchPredicate specContainsIgnoringCase
  cases hu : item.url with
  | none => simp [includes_iff]
  | some u =>
    have ht : truthy u = true ↔ u ≠ "" := by
      unfold truthy
      rw [Bool.not_eq_true', ← Bool.not_eq_true, List.isEmpty_iff]
      constructor
      · intro h e
        exact h (by simp [e])
      · intro h e
        exact h (String.ext e)
    simp [includes_iff, ht]

theorem bothPredicate_iff (item : Item) :
    bothPredicate item = true ↔
      (item.source_type = "note" ∧ ∃ u, item.url = some u ∧ ¬ specBlank u) := by
  unfold bothPredicate
  cases hu : item.url with
  | none => simp
  | some u =>
    have hlen : (trim u).length > 0 ↔ ¬ specBlank u := by
      rw [← truthy_trim_eq_true_iff]
      show (trimChars u.data).length > 0 ↔ (!(trimChars u.data).isEmpty) = true
      cases trimChars u.data <;> simp
    have himp : ¬ specBlank u → truthy u = true := by
      intro h
      unfold truthy
      by_contra hc
      apply h
      intro c hc2
      simp only [Bool.not_eq_true, Bool.not_eq_false_eq_eq_true, List.isEmpty_iff] at hc
      simp [hc] at hc2
    simp only [Bool.and_eq_true, beq_iff_eq, decide_eq_true_eq, hlen, Option.some.injEq,
      exists_eq_left']
    constructor
    · rintro ⟨h1, _, h3⟩
      exact ⟨h1, h3⟩
    · rintro ⟨h1, h3⟩
      exact ⟨h1, himp h3, h3⟩

theorem asciiFaithful_asciiLowerCase : AsciiFaithful asciiLowerCase :=
  fun _ _ => rfl

theorem mapInContext_ascii (f : List Char → Char → List Char → List Char)
    (hf : ∀ (before : List Char) (c : Char) (after : List Char),
      c.toNat < 128 → f before c after = [c.toLower])
    (p : List Char) (hp : ∀ c ∈ p, c.toNat < 128) :
    ∀ before rest : List Char,
      mapInContext f before (p ++ rest) =
        p.map Char.toLower ++ mapInContext f (before ++ p) rest := by
  induction p with
  | nil => intro before rest; simp
  | cons c cs ih =>
    intro before rest
    have hc : c.toNat < 128 := hp c (List.mem_cons_self c cs)
    have hcs : ∀ x ∈ cs, x.toNat < 128 := fun x hx => hp x (List.mem_cons_of_mem c hx)
    have hstep : mapInContext f before (c :: cs ++ rest) =
        f before c (cs ++ rest) ++ mapInContext f (before ++ [c]) (cs ++ rest) := rfl
    rw [hstep, hf before c (cs ++ rest) hc, ih hcs]
    simp

theorem mapInContext_append (f : List Char → Char → List Char → List Char) (a : List Char) :
    ∀ before rest : List Char,
      ∃ image : List Char,
        mapInContext f before (a ++ rest) = image ++ mapInContext f (before ++ a) rest := by
  induction a with
  | nil => intro before rest; exact ⟨[], by simp⟩
  | cons c cs ih =>
    intro before rest
    obtain ⟨image, himage⟩ := ih (before ++ [c]) rest
    refine ⟨f before c (cs ++ rest) ++ image, ?_⟩
    have hstep : mapInContext f before (c :: cs ++ rest) =
        f before c (cs ++ rest) ++ mapInContext f (before ++ [c]) (cs ++ rest) := rfl
    rw [hstep, himage]
    simp

theorem caseMapping_asciiFaithful (toLowerCase : String → String)
    (h : CaseMapping toLowerCase) : AsciiFaithful toLowerCase := by
  obtain ⟨f, hmap, hf⟩ := h
  intro s hs
  apply String.ext
  have := mapInContext_ascii f hf s.data hs [] []
  simp only [List.append_nil, List.nil_append, mapInContext] at this
  rw [hmap s, this]
  rfl

theorem caseMapping_asciiLowerCase : CaseMapping asciiLowerCase := by
  refine ⟨fun _ c _ => [c.toLower], ?_, fun _ _ _ _ => rfl⟩
  intro s
  have hgen : ∀ (l before : List Char),
      mapInContext (fun _ c _ => [c.toLower]) before l = l.map Char.toLower := by
    intro l
    induction l with
    | nil => intro before; rfl
    | cons c cs ih => intro before; simp [mapInContext, ih]
  rw [hgen]
  rfl

theorem project_empty_search (toLowerCase : String → String) (C : List Item) (cat : String) :
    project toLowerCase C cat "" = categoryStage C cat :=
  project_of_blank toLowerCase C cat "" specBlank_empty

/-! ## Lemmas on mounted instances -/

theorem foldl_preserves {α β : Type} (P : α → Prop) (f : α → β → α)
    (hstep : ∀ a b, P a → P (f a b)) :
    ∀ (l : List β) (a : α), P a → P (l.foldl f a) := by
  intro l
  induction l with
  | nil => intro a ha; exact ha
  | cons b bs ih => intro a ha; exact ih (f a b) (hstep a b ha)

theorem ingestForm_dispatch_singleFlight (onSuccess : Bool) (w : Instance IngestFormState)
    (ev : IngestEvent) (h : IngestForm.SingleFlight w)
    (hev : (ev.isSubmit && IngestForm.submitDisabled w.state) = false) :
    IngestForm.SingleFlight (IngestForm.dispatch onSuccess w ev) := by
  unfold IngestForm.SingleFlight at h ⊢
  cases ev with
  | setContent v =>
    rcases h with ⟨hl, hf⟩ | ⟨hl, hf⟩ <;> simp [IngestForm.dispatch, hl, hf]
  | setNoteUrl v =>
    rcases h with ⟨hl, hf⟩ | ⟨hl, hf⟩ <;> simp [IngestForm.dispatch, hl, hf]
  | setSourceType v =>
    rcases h with ⟨hl, hf⟩ | ⟨hl, hf⟩ <;> simp [IngestForm.dispatch, hl, hf]
  | submit =>
    rcases h with ⟨hl, hf⟩ | ⟨hl, hf⟩
    · simp [IngestEvent.isSubmit, IngestForm.submitDisabled, hl] at hev
    · by_cases hb : truthy (trim w.state.content) = true
      · simp [IngestForm.dispatch, IngestForm.handleSubmit_begin, requestCount,
          Effect.isRequest, hf, hb]
      · simp [IngestForm.dispatch, IngestForm.handleSubmit_begin, requestCount,
          Effect.isRequest, hl, hf, hb]
  | settle r =>
    rcases h with ⟨hl, hf⟩ | ⟨hl, hf⟩
    · cases r with
      | ok item =>
        cases onSuccess <;>
          simp [IngestForm.dispatch, IngestForm.handleSubmit_resume, requestCount,
            Effect.isRequest, hf]
      | error e =>
        simp [IngestForm.dispatch, IngestForm.handleSubmit_resume, requestCount, hf]
    · simp [IngestForm.dispatch, hl, hf]

theorem queryModal_dispatch_singleFlight (item : Item) (w : Instance QueryState)
    (ev : QueryEvent) (h : Query.SingleFlight w)
    (hev : (ev.isSubmit && QueryModal.submitDisabled w.state) = false) :
    Query.SingleFlight (QueryModal.dispatch item w ev) := by
  unfold Query.SingleFlight at h ⊢
  cases ev with
  | setQuestion v =>
    rcases h with ⟨hl, hf⟩ | ⟨hl, hf⟩ <;> simp [QueryModal.dispatch, hl, hf]
  | submit =>
    rcases h with ⟨hl, hf⟩ | ⟨hl, hf⟩
    · simp [QueryEvent.isSubmit, QueryModal.submitDisabled, hl] at hev
    · by_cases hb : truthy (trim w.state.question) = true
      · simp [QueryModal.dispatch, QueryModal.handleSubmit_begin, requestCount,
          Effect.isRequest, hf, hb]
      · simp [QueryModal.dispatch, QueryModal.handleSubmit_begin, requestCount,
          Effect.isRequest, hl, hf, hb]
  | settle r =>
    rcases h with ⟨hl, hf⟩ | ⟨hl, hf⟩
    · cases r <;> simp [QueryModal.dispatch, Query.handleSubmit_resume, requestCount, hf]
    · simp [QueryModal.dispatch, hl, hf]
  | itemChanged sel => simpa [QueryModal.dispatch] using h
  | clearSelection => simpa [QueryModal.dispatch] using h

theorem queryInterface_dispatch_singleFlight (selectedItem : Option Item)
    (w : Instance QueryState) (ev : QueryEvent) (h : Query.SingleFlight w)
    (hev : (ev.isSubmit && QueryInterface.submitDisabled w.state) = false) :
    Query.SingleFlight (QueryInterface.dispatch selectedItem w ev) := by
  unfold Query.SingleFlight at h ⊢
  cases ev with
  | setQuestion v =>
    rcases h with ⟨hl, hf⟩ | ⟨hl, hf⟩ <;> simp [QueryInterface.dispatch, hl, hf]
  | submit =>
    rcases h with ⟨hl, hf⟩ | ⟨hl, hf⟩
    · simp [QueryEvent.isSubmit, QueryInterface.submitDisabled, hl] at hev
    · by_cases hb : truthy (trim w.state.question) = true
      · simp [QueryInterface.dispatch, QueryInterface.handleSubmit_begin, requestCount,
          Effect.isRequest, hf, hb]
      · simp [QueryInterface.dispatch, QueryInterface.handleSubmit_begin, requestCount,
          Effect.isRequest, hl, hf, hb]
  | settle r =>
    rcases h with ⟨hl, hf⟩ | ⟨hl, hf⟩
    · cases r <;> simp [QueryInterface.dispatch, Query.handleSubmit_resume, requestCount, hf]
    · simp [QueryInterface.dispatch, hl, hf]
  | itemChanged sel =>
    cases sel <;> simpa [QueryInterface.dispatch, QueryInterface.selectedItemEffect] using h
  | clearSelection =>
    cases selectedItem <;>
      simpa [QueryInterface.dispatch, QueryInterface.clearSelection] using h

theorem ingestForm_run_singleFlight (onSuccess : Bool) (events : List IngestEvent) :
    ∀ w : Instance IngestFormState, IngestForm.SingleFlight w →
      IngestForm.respectsDisabled onSuccess w events = true →
      IngestForm.SingleFlight (events.foldl (IngestForm.dispatch onSuccess) w) := by
  induction events with
  | nil => intro w h _; exact h
  | cons ev rest ih =>
    intro w h hp
    simp only [IngestForm.respectsDisabled, Bool.and_eq_true, Bool.not_eq_true'] at hp
    exact ih _ (ingestForm_dispatch_singleFlight onSuccess w ev h hp.1) hp.2

theorem queryModal_run_singleFlight (item : Item) (events : List QueryEvent) :
    ∀ w : Instance QueryState, Query.SingleFlight w →
      QueryModal.respectsDisabled item w events = true →
      Query.SingleFlight (events.foldl (QueryModal.dispatch item) w) := by
  induction events with
  | nil => intro w h _; exact h
  | cons ev rest ih =>
    intro w h hp
    simp only [QueryModal.respectsDisabled, Bool.and_eq_true, Bool.not_eq_true'] at hp
    exact ih _ (queryModal_dispatch_singleFlight item w ev h hp.1) hp.2

theorem queryInterface_run_singleFlight (selectedItem : Option Item)
    (events : List QueryEvent) :
    ∀ w : Instance QueryState, Query.SingleFlight w →
      QueryInterface.respectsDisabled selectedItem w events = true →
      Query.SingleFlight (events.foldl (QueryInterface.dispatch selectedItem) w) := by
  induction events with
  | nil => intro w h _; exact h
  | cons ev rest ih =>
    intro w h hp
    simp only [QueryInterface.respectsDisabled, Bool.and_eq_true, Bool.not_eq_true'] at hp
    exact ih _ (queryInterface_dispatch_singleFlight selectedItem w ev h hp.1) hp.2

theorem singleFlight_facts_ingest (w : Instance IngestFormState)
    (h : IngestForm.SingleFlight w) :
    (w.state.loading = true ↔ w.inFlight = 1) ∧ (w.state.loading = false ↔ w.inFlight = 0) ∧
      w.inFlight ≤ 1 := by
  unfold IngestForm.SingleFlight at h
  rcases h with ⟨hl, hf⟩ | ⟨hl, hf⟩ <;> simp [hl, hf]

theorem singleFlight_facts_query (w : Instance QueryState) (h : Query.SingleFlight w) :
    (w.state.loading = true ↔ w.inFlight = 1) ∧ (w.state.loading = false ↔ w.inFlight = 0) ∧
      w.inFlight ≤ 1 := by
  unfold Query.SingleFlight at h
  rcases h with ⟨hl, hf⟩ | ⟨hl, hf⟩ <;> simp [hl, hf]

theorem truthy_iff_ne_empty (d : String) : truthy d = true ↔ d ≠ "" := by
  unfold truthy
  rw [Bool.not_eq_true', ← Bool.not_eq_true, List.isEmpty_iff]
  constructor
  · intro h e
    exact h (by simp [e])
  · intro h e
    exact h (String.ext e)

/-! ## Lemmas on the mounted `App` -/

theorem settleAll_items (rs : List (Except JsError (List Item))) (s : AppState) :
    (App.settleAll rs s).items = (specLastSuccess rs).getD s.items := by
  induction rs generalizing s with
  | nil => rfl
  | cons r rest ih =>
    have hstep : App.settleAll (r :: rest) s =
        App.settleAll rest (App.fetchItems_resume r s).state := rfl
    rw [hstep, ih]
    cases hl : specLastSuccess rest with
    | some D => simp [specLastSuccess, hl]
    | none => cases r <;> simp [specLastSuccess, hl, App.fetchItems_resume]

theorem dispatch_items (toLowerCase : String → String) (w : AppInstance) (ev : AppEvent) :
    (App.dispatch toLowerCase w ev).state.items =
      match ev with
      | AppEvent.getItemsSettled (Except.ok D) => D
      | _ => w.state.items := by
  cases ev with
  | getItemsSettled r => cases r <;> rfl
  | setFilterType id =>
    simp only [App.dispatch]
    split_ifs <;> rfl
  | clearFilters =>
    simp only [App.dispatch]
    split_ifs <;> rfl
  | filterEffect =>
    simp only [App.dispatch]
    split_ifs <;> rfl
  | deleteSettled r => cases r <;> rfl
  | healthSettled r => cases r <;> rfl
  | healthTick => rfl
  | ingestSucceeded => rfl
  | deleteConfirmed itemId => rfl
  | setSearchQuery value => rfl
  | setSelectedItem item => rfl
  | setShowAddForm value => rfl
  | toggleSidebar => rfl

theorem foldl_dispatch_items (toLowerCase : String → String) (events : List AppEvent)
    (w : AppInstance) :
    (events.foldl (App.dispatch toLowerCase) w).state.items =
      (specLastRefresh events).getD w.state.items := by
  induction events generalizing w with
  | nil => rfl
  | cons ev rest ih =>
    rw [List.foldl_cons, ih, dispatch_items]
    cases hl : specLastRefresh rest with
    | some D => simp [specLastRefresh, hl]
    | none =>
      cases ev with
      | getItemsSettled r => cases r <;> simp [specLastRefresh, hl]
      | _ => simp [specLastRefresh, hl]

theorem dispatch_inStep (toLowerCase : String → String) (w : AppInstance) (ev : AppEvent)
    (h : App.InStep toLowerCase w) : App.InStep toLowerCase (App.dispatch toLowerCase w ev) := by
  unfold App.InStep at h ⊢
  cases ev with
  | getItemsSettled r =>
    cases r with
    | ok data => intro hd; simp [App.dispatch] at hd
    | error e => intro hd; exact h hd
  | setFilterType id =>
    simp only [App.dispatch]
    split_ifs with hid
    · intro hd
      simp only [Bool.or_eq_false_iff, decide_eq_false_iff_not, not_not] at hd
      have := h hd.1
      simp only [hd.2]
      exact this
    · exact h
  | setSearchQuery value =>
    intro hd
    simp only [App.dispatch, Bool.or_eq_false_iff, decide_eq_false_iff_not, not_not] at hd
    have := h hd.1
    simp only [App.dispatch, hd.2]
    exact this
  | clearFilters =>
    simp only [App.dispatch]
    split_ifs with hc
    · intro hd
      simp only [Bool.or_eq_false_iff, decide_eq_false_iff_not, not_not] at hd
      have := h hd.1.1
      simp only [← hd.1.2, ← hd.2]
      exact this
    · exact h
  | filterEffect =>
    simp only [App.dispatch]
    split_ifs with hdue
    · intro _
      rfl
    · exact h
  | deleteSettled r => cases r <;> exact h
  | healthSettled r => cases r <;> exact h
  | healthTick => exact h
  | ingestSucceeded => exact h
  | deleteConfirmed itemId => exact h
  | setSelectedItem item => exact h
  | setShowAddForm value => exact h
  | toggleSidebar => exact h

theorem run_inStep (toLowerCase : String → String) (events : List AppEvent) :
    App.InStep toLowerCase (App.run toLowerCase events) :=
  foldl_preserves (App.InStep toLowerCase) (App.dispatch toLowerCase)
    (dispatch_inStep toLowerCase) events (App.mount toLowerCase) (fun _ => rfl)

/-! ## Lemmas on the views -/

theorem cards_error_of_mem (host : Host) (items : List Item) (item : Item)
    (hmem : item ∈ items) (hbad : ∃ e, ItemsList.card host item = Except.error e) :
    ∃ e, ItemsList.cards host items = Except.error e := by
  induction items with
  | nil => simp at hmem
  | cons x xs ih =>
    simp only [ItemsList.cards]
    cases hx : ItemsList.card host x with
    | error e => exact ⟨e, rfl⟩
    | ok c =>
      have hin : item ∈ xs := by
        rcases List.mem_cons.mp hmem with heq | hin
        · obtain ⟨e, he⟩ := hbad
          rw [heq, hx] at he
          cases he
        · exact hin
      obtain ⟨e, he⟩ := ih hin
      exact ⟨e, by simp [he]⟩

theorem sourceLinks_error_of_mem (host : Host) (sources : List Source) (source : Source)
    (hmem : source ∈ sources)
    (hbad : ∃ e, Query.hostnameLink host source.url = Except.error e) :
    ∃ e, Query.sourceLinks host sources = Except.error e := by
  induction sources with
  | nil => simp at hmem
  | cons x xs ih =>
    simp only [Query.sourceLinks]
    cases hx : Query.hostnameLink host x.url with
    | error e => exact ⟨e, rfl⟩
    | ok l =>
      have hin : source ∈ xs := by
        rcases List.mem_cons.mp hmem with heq | hin
        · obtain ⟨e, he⟩ := hbad
          rw [heq, hx] at he
          cases he
        · exact hin
      obtain ⟨e, he⟩ := ih hin
      exact ⟨e, by simp [he]⟩

theorem hostnameLink_error (host : Host) (u : String) (e : JsError) (hne : u ≠ "")
    (hbad : host.hostname u = Except.error e) :
    Query.hostnameLink host (some u) = Except.error e := by
  simp [Query.hostnameLink, (truthy_iff_ne_empty u).mpr hne, hbad]

theorem card_error (host : Host) (item : Item) (u : String) (e : JsError)
    (hu : item.url = some u) (hne : u ≠ "") (hbad : host.hostname u = Except.error e) :
    ItemsList.card host item = Except.error e := by
  have hblock : ItemsList.urlBlock host item = Except.error e := by
    simp only [ItemsList.urlBlock, hu, (truthy_iff_ne_empty u).mpr hne, hbad]
    split_ifs <;> rfl
  simp [ItemsList.card, hblock]

/-! ## Lemmas on `formatDate` -/

theorem append_right_ne (a b u v : String) (hlen : u.length = v.length) (hne : u ≠ v) :
    a ++ u ≠ b ++ v := by
  intro h
  have hdata : a.data ++ u.data = b.data ++ v.data := by
    have := congrArg String.data h
    simpa [String.data_append] using this
  have hl : u.data.length = v.data.length := hlen
  exact hne (String.ext (List.append_inj' hdata hl).2)

theorem justNow_ne_append (a u : String) (hlen : u.length = 5) (hne : "t now" ≠ u) :
    "Just now" ≠ a ++ u := by
  have h : "Just now" = "Jus" ++ "t now" := by decide
  rw [h]
  exact append_right_ne "Jus" a "t now" u (by rw [hlen]; decide) hne

theorem plainDate_ne_ago (text a u : String) (hloc : specPlainDate text)
    (hu : ∃ c : String, u = c ++ " ago") : text ≠ a ++ u := by
  obtain ⟨c, hc⟩ := hu
  rw [hc, ← String.append_assoc]
  exact hloc.2 (a ++ c)

theorem formatDate_of_parsed (host : Host) (ts : String) (date : Int) (hts : ts ≠ "")
    (hparse : host.dateParse ts = some date) :
    ItemsList.formatDate host (some ts) =
      if host.now - date < 60000 then "Just now"
      else if host.now - date < 3600000 then
        toString ((host.now - date).toNat / 60000) ++ "m ago"
      else if host.now - date < 86400000 then
        toString ((host.now - date).toNat / 3600000) ++ "h ago"
      else if host.now - date < 604800000 then
        toString ((host.now - date).toNat / 86400000) ++ "d ago"
      else host.toLocaleDateString date := by
  simp only [ItemsList.formatDate, (truthy_iff_ne_empty ts).mpr hts, hparse, Bool.not_true,
    Bool.false_eq_true, if_false]
  generalize host.now - date = d
  split_ifs <;> first | rfl | omega

/-! ## View projector -/

/-- C1: with a blank search text the projection is the category stage: `all`
returns the collection itself, `note` exactly the items with
`source_type = note`, `url` exactly those with `source_type = url`, and `both`
exactly the notes whose url is present and not blank; so every item of a `both`
result is a note with a non-empty url and none is a url item. -/
theorem category_stage_spec (toLowerCase : String → String) (C : List Item) :
    project toLowerCase C "all" "" = C ∧
    project toLowerCase C "note" "" = C.filter (fun item => decide (item.source_type = "note")) ∧
    project toLowerCase C "url" "" = C.filter (fun item => decide (item.source_type = "url")) ∧
    (∃ keep : Item → Bool,
      (∀ item, keep item = true ↔
        (item.source_type = "note" ∧ ∃ u, item.url = some u ∧ ¬ specBlank u)) ∧
      project toLowerCase C "both" "" = C.filter keep) ∧
    (∀ item ∈ project toLowerCase C "both" "",
      item ∈ C ∧ item.source_type = "note" ∧ item.url ≠ none ∧ item.url ≠ some "" ∧
        item.source_type ≠ "url") := by
  simp only [project_empty_search]
  have hbeq : ∀ a b : String, (a == b) = decide (a = b) := fun _ _ => rfl
  refine ⟨by simp [categoryStage], ?_, ?_, ?_, ?_⟩
  · simp [categoryStage, hbeq]
  · simp [categoryStage, hbeq]
  · exact ⟨bothPredicate, bothPredicate_iff, by simp [categoryStage]⟩
  · intro item hmem
    have hcat : categoryStage C "both" = C.filter bothPredicate := by simp [categoryStage]
    rw [hcat, List.mem_filter] at hmem
    obtain ⟨hC, hp⟩ := hmem
    obtain ⟨hnote, u, hu, hnb⟩ := (bothPredicate_iff item).mp hp
    refine ⟨hC, hnote, by simp [hu], ?_, by simp [hnote]⟩
    intro he
    rw [hu, Option.some.injEq] at he
    exact hnb (he ▸ specBlank_empty)

/-- C2: for a search text that is not blank, the projection is the
category-stage result filtered by a predicate that holds exactly for the items
whose content contains the text ignoring case, or whose url is present
(a non-empty string) and contains it ignoring case. With `HELLO` an item with
content `say hello` is kept and a url-less `goodbye` item is dropped; with
category `url` and text `shop` a single url item whose content contains
`Shopping list`, whatever else it contains, projects to exactly that item.
The examples hold for every case mapping that treats ASCII text as
`toLowerCase` does. -/
theorem search_stage_spec :
    (∀ (toLowerCase : String → String) (C : List Item) (cat s : String), ¬ specBlank s →
      ∃ keep : Item → Bool,
        (∀ item, keep item = true ↔
          (specContainsIgnoringCase toLowerCase item.content s ∨
            ∃ u, item.url = some u ∧ u ≠ "" ∧ specContainsIgnoringCase toLowerCase u s)) ∧
        project toLowerCase C cat s = (project toLowerCase C cat "").filter keep) ∧
    (∀ (toLowerCase : String → String), AsciiFaithful toLowerCase →
      ∀ (C : List Item) (a b : Item), a ∈ C → a.content = "say hello" →
        b.content = "goodbye" → b.url = none →
        a ∈ project toLowerCase C "all" "HELLO" ∧ b ∉ project toLowerCase C "all" "HELLO") ∧
    (∀ (toLowerCase : String → String), CaseMapping toLowerCase →
      ∀ item : Item, item.source_type = "url" →
        specContains item.content "Shopping list" →
        project toLowerCase [item] "url" "shop" = [item]) := by
  refine ⟨?_, ?_, ?_⟩
  · intro toLowerCase C cat s hs
    refine ⟨searchPredicate toLowerCase s, searchPredicate_iff toLowerCase s, ?_⟩
    rw [project_empty_search, project_of_not_blank toLowerCase C cat s hs]
  · intro toLowerCase hl C a b haC ha hb hbu
    have hq : toLowerCase "HELLO" = "hello" := by
      rw [hl "HELLO" (by decide)]; decide
    have h1 : toLowerCase "say hello" = "say hello" := by
      rw [hl "say hello" (by decide)]; decide
    have h2 : toLowerCase "goodbye" = "goodbye" := by
      rw [hl "goodbye" (by decide)]; decide
    have hs : ¬ specBlank "HELLO" := (truthy_trim_eq_true_iff "HELLO").mp (by decide)
    have hcat : categoryStage C "all" = C := by simp [categoryStage]
    rw [project_of_not_blank toLowerCase C "all" "HELLO" hs, hcat]
    constructor
    · rw [List.mem_filter]
      refine ⟨haC, ?_⟩
      have hi : includes "say hello" "hello" = true := by decide
      simp [searchPredicate, ha, hq, h1, hi]
    · rw [List.mem_filter]
      rintro ⟨_, hp⟩
      have hi : includes "goodbye" "hello" = false := by decide
      simp [searchPredicate, hb, hbu, hq, h2, hi] at hp
  · intro toLowerCase hcase item hty hcontains
    have hl := caseMapping_asciiFaithful toLowerCase hcase
    obtain ⟨f, hmap, hf⟩ := hcase
    have hq : toLowerCase "shop" = "shop" := by
      rw [hl "shop" (by decide)]; decide
    have hs : ¬ specBlank "shop" := (truthy_trim_eq_true_iff "shop").mp (by decide)
    have hcat : categoryStage [item] "url" = [item] := by simp [categoryStage, hty]
    have hinc : includes (toLowerCase item.content) (toLowerCase "shop") = true := by
      rw [hq, includes_iff]
      obtain ⟨a, b, hab⟩ := hcontains
      obtain ⟨image, himage⟩ := mapInContext_append f a [] ("Shopping list".data ++ b)
      have hseg := mapInContext_ascii f hf "Shopping list".data (by decide) ([] ++ a) b
      have hlow : ("Shopping list".data).map Char.toLower = "shop".data ++ "ping list".data := by
        decide
      refine ⟨image, "ping list".data ++ mapInContext f ([] ++ a ++ "Shopping list".data) b, ?_⟩
      rw [hmap item.content, hab, List.append_assoc, himage, hseg, hlow]
      simp only [List.append_assoc]
    rw [project_of_not_blank toLowerCase [item] "url" "shop" hs, hcat]
    simp [searchPredicate, hinc]

/-- Witness of C2 with the ASCII case mapping: the general part at the text
`HELLO`, the `HELLO` example on `sampleHello` and `sampleGoodbye`, and the
`shop` example on `sampleCafeList`, whose content is not all ASCII. -/
theorem search_stage_spec_witness :
    (¬ specBlank "HELLO" ∧
      ∃ keep : Item → Bool,
        (∀ item, keep item = true ↔
          (specContainsIgnoringCase asciiLowerCase item.content "HELLO" ∨
            ∃ u, item.url = some u ∧ u ≠ "" ∧
              specContainsIgnoringCase asciiLowerCase u "HELLO")) ∧
        project asciiLowerCase [sampleHello, sampleGoodbye] "all" "HELLO" =
          (project asciiLowerCase [sampleHello, sampleGoodbye] "all" "").filter keep) ∧
    (AsciiFaithful asciiLowerCase ∧
      sampleHello ∈ project asciiLowerCase [sampleHello, sampleGoodbye] "all" "HELLO" ∧
      sampleGoodbye ∉ project asciiLowerCase [sampleHello, sampleGoodbye] "all" "HELLO") ∧
    (CaseMapping asciiLowerCase ∧
      specContains sampleCafeList.content "Shopping list" ∧
      project asciiLowerCase [sampleCafeList] "url" "shop" = [sampleCafeList] ∧
      project asciiLowerCase [sampleShopping] "url" "shop" = [sampleShopping]) :=
  ⟨⟨(truthy_trim_eq_true_iff "HELLO").mp (by decide),
      search_stage_spec.1 asciiLowerCase [sampleHello, sampleGoodbye] "all" "HELLO"
        ((truthy_trim_eq_true_iff "HELLO").mp (by decide))⟩,
    ⟨asciiFaithful_asciiLowerCase,
      search_stage_spec.2.1 asciiLowerCase asciiFaithful_asciiLowerCase
        [sampleHello, sampleGoodbye] sampleHello sampleGoodbye (by decide) rfl rfl rfl⟩,
    ⟨caseMapping_asciiLowerCase,
      ⟨"Ma liste – ".data, ": café, crème brûlée".data, by decide⟩,
      search_stage_spec.2.2 asciiLowerCase caseMapping_asciiLowerCase sampleCafeList rfl
        ⟨"Ma liste – ".data, ": café, crème brûlée".data, by decide⟩,
      search_stage_spec.2.2 asciiLowerCase caseMapping_asciiLowerCase sampleShopping rfl
        ⟨[], ": milk, eggs".data, by decide⟩⟩⟩

/-- C3: a search text that is empty or whitespace-only filters nothing: the
projection equals the one for the empty search text. -/
theorem blank_search_is_noop (toLowerCase : String → String) (C : List Item) (cat s : String)
    (h : specBlank s) :
    project toLowerCase C cat s = project toLowerCase C cat "" := by
  rw [project_of_blank toLowerCase C cat s h, project_empty_search]

/-- Witness of C3: a search text of two blanks, a tab and a line break. -/
theorem blank_search_is_noop_witness :
    specBlank "  \t\n" ∧
    project asciiLowerCase [sampleHello, sampleShopping] "note" "  \t\n" =
      project asciiLowerCase [sampleHello, sampleShopping] "note" "" :=
  ⟨(truthy_trim_eq_false_iff "  \t\n").mp (by decide),
    blank_search_is_noop asciiLowerCase [sampleHello, sampleShopping] "note" "  \t\n"
      ((truthy_trim_eq_false_iff "  \t\n").mp (by decide))⟩

/-- C4: the projection is a sublist of the collection: it only drops items,
never changes, repeats or reorders them. -/
theorem project_sublist (toLowerCase : String → String) (C : List Item) (cat s : String) :
    List.Sublist (project toLowerCase C cat s) C := by
  unfold project
  simp only
  split_ifs
  · exact (List.filter_sublist _).trans (categoryStage_sublist C cat)
  · exact categoryStage_sublist C cat

/-! ## Item store -/

/-- C5: a failed `getItems` call leaves the collection as it was: starting
`fetchItems` changes no state, and resuming it with a failure keeps `items`. -/
theorem fetchItems_failure_keeps_collection (s s' : AppState) (error : JsError) :
    (App.fetchItems_begin s).state = s ∧
    (App.fetchItems_resume (Except.error error) s').state.items = s'.items :=
  ⟨rfl, rfl⟩

/-- C6: when `getItems` succeeds with the list `D`, `fetchItems` leaves
`items = D` whatever the collection was before, and `loading = false`. In
scenario A the ingest of `Buy milk` as a note issues one `ingestContent`
request, its success invokes `onSuccess`, which starts one `getItems` request,
and the response `[sampleMilk]` becomes the collection. -/
theorem fetchItems_success_replaces_collection (s : AppState) (D : List Item) :
    (App.fetchItems_resume (Except.ok D) s).state.items = D ∧
    (App.fetchItems_resume (Except.ok D) s).state.loading = false ∧
    (App.fetchItems_resume (Except.ok D) s).settled = Settled.fulfilled ∧
    (IngestForm.handleSubmit_begin { IngestForm.init with content := "Buy milk" }).effects =
      [Effect.preventDefault, Effect.request (Call.ingestContent "Buy milk" "note" (some ""))] ∧
    (IngestForm.handleSubmit_resume true (Except.ok sampleMilk)
      (IngestForm.handleSubmit_begin { IngestForm.init with content := "Buy milk" }).state).effects =
      [Effect.onSuccess] ∧
    (App.handleIngestSuccess s).effects = [Effect.request Call.getItems] ∧
    (App.fetchItems_resume (Except.ok [sampleMilk]) (App.handleIngestSuccess s).state).state.items =
      [sampleMilk] :=
  ⟨rfl, rfl, rfl, by decide, by decide, rfl, rfl⟩

/-- C7 (as stated, refuted): in `sampleAppState` a failure with message
`Network Error`, a failure with message `timeout of 5000ms exceeded` and a
success returning the current collection all leave the same state and the same
fulfilled promise, and the failure shows no alert: the failure and its message
cannot be read off the result or the state. -/
theorem fetchItems_failure_unobservable :
    (App.fetchItems_resume (Except.error ⟨"Network Error"⟩) sampleAppState).state =
      (App.fetchItems_resume (Except.error ⟨"timeout of 5000ms exceeded"⟩) sampleAppState).state ∧
    (App.fetchItems_resume (Except.error ⟨"Network Error"⟩) sampleAppState).settled =
      (App.fetchItems_resume (Except.error ⟨"timeout of 5000ms exceeded"⟩) sampleAppState).settled ∧
    (App.fetchItems_resume (Except.error ⟨"Network Error"⟩) sampleAppState).state =
      (App.fetchItems_resume (Except.ok [sampleMilk]) sampleAppState).state ∧
    (App.fetchItems_resume (Except.error ⟨"Network Error"⟩) sampleAppState).settled =
      (App.fetchItems_resume (Except.ok [sampleMilk]) sampleAppState).settled ∧
    (App.fetchItems_resume (Except.error ⟨"Network Error"⟩) sampleAppState).effects =
      [Effect.consoleError "Failed to fetch items:" "Network Error"] := by
  decide

/-- C7 (amended): when `getItems` fails with message `m`, `fetchItems` catches
the error: its only effect is one `console.error` entry carrying `m`, its
promise is fulfilled, and the state afterwards is the state before with
`loading = false`. -/
theorem fetchItems_failure_only_logged (s : AppState) (error : JsError) :
    (App.fetchItems_resume (Except.error error) s).effects =
      [Effect.consoleError "Failed to fetch items:" error.message] ∧
    (App.fetchItems_resume (Except.error error) s).settled = Settled.fulfilled ∧
    (App.fetchItems_resume (Except.error error) s).state = { s with loading := false } :=
  ⟨rfl, rfl, rfl⟩

/-- C8 (as stated, refuted): in scenario D the delete is rejected with detail
`not found`; the text shown to the user is
`Failed to delete item: not found`, not `not found`. -/
theorem handleDelete_alert_text_is_prefixed :
    (responseErrorInterceptor sampleNotFound).1.message = "not found" ∧
    (App.handleDelete_resume (Except.error (responseErrorInterceptor sampleNotFound).1)
      sampleAppState).effects = [Effect.alert "Failed to delete item: not found"] ∧
    Effect.alert "not found" ∉
      (App.handleDelete_resume (Except.error (responseErrorInterceptor sampleNotFound).1)
        sampleAppState).effects := by
  decide

/-- C8 (amended): when `deleteItem(id)` fails with message `m`, `handleDelete`
leaves the whole state, the collection included, unchanged and shows one alert
whose text is `Failed to delete item: ` followed by `m`; the gateway takes `m`
from the response detail whenever that is a non-empty string. -/
theorem handleDelete_failure_alerts (itemId : String) (s s' : AppState) (error : JsError) :
    (App.handleDelete_begin itemId s).state = s ∧
    (App.handleDelete_resume (Except.error error) s').state = s' ∧
    (App.handleDelete_resume (Except.error error) s').effects =
      [Effect.alert ("Failed to delete item: " ++ error.message)] ∧
    (∀ (e : AxiosError) (d : String), e.detail = some (Json.str d) → d ≠ "" →
      (responseErrorInterceptor e).1.message = d) := by
  refine ⟨rfl, rfl, rfl, ?_⟩
  intro e d hd hne
  have ht : (Json.str d).truthy = true := by
    unfold Json.truthy
    rw [Bool.not_eq_true', ← Bool.not_eq_true, List.isEmpty_iff]
    intro h
    exact hne (String.ext h)
  simp [responseErrorInterceptor, errorMessage, errorValue, hd, ht, Json.toJsString]

/-- Witness of C8 (amended) on scenario D. -/
theorem handleDelete_failure_alerts_witness :
    sampleNotFound.detail = some (Json.str "not found") ∧ "not found" ≠ "" ∧
    (responseErrorInterceptor sampleNotFound).1.message = "not found" :=
  ⟨rfl, by decide,
    (handleDelete_failure_alerts "1" sampleAppState sampleAppState ⟨"not found"⟩).2.2.2
      sampleNotFound "not found" rfl (by decide)⟩

/-- C9: `handleDelete` issues exactly one `deleteItem(itemId)` request and
changes no state before or after it settles; a success starts exactly one
`getItems` request (the start of `fetchItems`), a failure starts none; the
collection changes only when that refresh is resumed with its response. -/
theorem handleDelete_no_optimistic_removal (itemId : String) (s s' s'' : AppState)
    (error : JsError) (D : List Item) :
    (App.handleDelete_begin itemId s).effects = [Effect.request (Call.deleteItem itemId)] ∧
    (App.handleDelete_begin itemId s).state = s ∧
    (App.handleDelete_resume (Except.ok ()) s').state = s' ∧
    (App.handleDelete_resume (Except.ok ()) s').effects = [Effect.request Call.getItems] ∧
    (App.handleDelete_resume (Except.ok ()) s').effects = (App.fetchItems_begin s').effects ∧
    (App.handleDelete_resume (Except.error error) s').state = s' ∧
    (∀ call, Effect.request call ∉ (App.handleDelete_resume (Except.error error) s').effects) ∧
    (App.fetchItems_resume (Except.ok D) s'').state.items = D := by
  refine ⟨rfl, rfl, rfl, rfl, rfl, rfl, ?_, rfl⟩
  intro call
  simp [App.handleDelete_resume]

/-! ## Ingest workflow -/

/-- C10: submitting an ingest form whose content is empty or whitespace-only
sets `error` to `Content cannot be empty`, issues no request, does not invoke
`onSuccess`, leaves `content`, `noteUrl`, `sourceType` and `loading` unchanged,
and ends the handler there. -/
theorem ingest_blank_content_rejected (s : IngestFormState) (h : specBlank s.content) :
    (IngestForm.handleSubmit_begin s).state.error = "Content cannot be empty" ∧
    (∀ call, Effect.request call ∉ (IngestForm.handleSubmit_begin s).effects) ∧
    Effect.onSuccess ∉ (IngestForm.handleSubmit_begin s).effects ∧
    (IngestForm.handleSubmit_begin s).state.content = s.content ∧
    (IngestForm.handleSubmit_begin s).state.noteUrl = s.noteUrl ∧
    (IngestForm.handleSubmit_begin s).state.sourceType = s.sourceType ∧
    (IngestForm.handleSubmit_begin s).state.loading = s.loading ∧
    (IngestForm.handleSubmit_begin s).settled = Settled.fulfilled := by
  have hb := (truthy_trim_eq_false_iff s.content).mpr h
  simp [IngestForm.handleSubmit_begin, hb]

/-- Witness of C10: a form whose content is blanks and a tab. -/
theorem ingest_blank_content_rejected_witness :
    specBlank sampleBlankForm.content ∧
    (IngestForm.handleSubmit_begin sampleBlankForm).state.error = "Content cannot be empty" ∧
    (IngestForm.handleSubmit_begin sampleBlankForm).effects = [Effect.preventDefault] :=
  ⟨(truthy_trim_eq_false_iff sampleBlankForm.content).mp (by decide),
    (ingest_blank_content_rejected sampleBlankForm
      ((truthy_trim_eq_false_iff sampleBlankForm.content).mp (by decide))).1,
    by decide⟩

/-- C11: a submission with content that is not blank issues one
`ingestContent` call with the content and the source type as entered; its url
argument is the reference-url field when the source type is `note` and `null`
when it is `url`, whatever that field holds; the body of the `POST /ingest`
request carries these three values. -/
theorem ingest_request_arguments (s : IngestFormState) (h : ¬ specBlank s.content) :
    ∃ url : Option String,
      (IngestForm.handleSubmit_begin s).effects =
        [Effect.preventDefault, Effect.request (Call.ingestContent s.content s.sourceType url)] ∧
      (s.sourceType = "note" → url = some s.noteUrl) ∧
      (s.sourceType = "url" → url = none) ∧
      (Call.toRequest (Call.ingestContent s.content s.sourceType url)).body =
        [("content", JsonValue.str s.content), ("source_type", JsonValue.str s.sourceType),
         ("url", JsonValue.ofOption url)] := by
  have hb := (truthy_trim_eq_true_iff s.content).mpr h
  refine ⟨if s.sourceType = "note" then some s.noteUrl else none, ?_, ?_, ?_, rfl⟩
  · simp [IngestForm.handleSubmit_begin, hb]
  · intro hn
    simp [hn]
  · intro hu
    simp [hu]

/-- Witness of C11: a `url` submission made while the reference-url field
still holds text sends `url: null`. -/
theorem ingest_request_arguments_witness :
    ¬ specBlank sampleUrlForm.content ∧
    (IngestForm.handleSubmit_begin sampleUrlForm).effects =
      [Effect.preventDefault,
       Effect.request (Call.ingestContent "https://example.com/page" "url" none)] ∧
    (IngestForm.handleSubmit_begin sampleNoteForm).effects =
      [Effect.preventDefault,
       Effect.request (Call.ingestContent "Buy milk" "note" (some "https://example.com/shop"))] ∧
    ∃ url : Option String,
      (IngestForm.handleSubmit_begin sampleUrlForm).effects =
        [Effect.preventDefault,
         Effect.request (Call.ingestContent sampleUrlForm.content sampleUrlForm.sourceType url)] ∧
      (sampleUrlForm.sourceType = "note" → url = some sampleUrlForm.noteUrl) ∧
      (sampleUrlForm.sourceType = "url" → url = none) ∧
      (Call.toRequest
        (Call.ingestContent sampleUrlForm.content sampleUrlForm.sourceType url)).body =
        [("content", JsonValue.str sampleUrlForm.content),
         ("source_type", JsonValue.str sampleUrlForm.sourceType),
         ("url", JsonValue.ofOption url)] :=
  ⟨(truthy_trim_eq_true_iff sampleUrlForm.content).mp (by decide), by decide, by decide,
    ingest_request_arguments sampleUrlForm
      ((truthy_trim_eq_true_iff sampleUrlForm.content).mp (by decide))⟩

/-- C12: when the `ingestContent` call of a submission with non-blank content
succeeds, the form ends with `content = ""`, `noteUrl = ""`, `error = ""` and
`loading = false`, and `onSuccess` is invoked exactly once; in `App` that
callback is `handleIngestSuccess`, which starts exactly one `getItems` request. -/
theorem ingest_success_clears_form (s : IngestFormState) (item : Item) (a : AppState)
    (h : ¬ specBlank s.content) :
    (IngestForm.resolved true (Except.ok item) s).state.content = "" ∧
    (IngestForm.resolved true (Except.ok item) s).state.noteUrl = "" ∧
    (IngestForm.resolved true (Except.ok item) s).state.error = "" ∧
    (IngestForm.resolved true (Except.ok item) s).state.loading = false ∧
    (IngestForm.resolved true (Except.ok item) s).effects = [Effect.onSuccess] ∧
    (App.handleIngestSuccess a).effects = [Effect.request Call.getItems] ∧
    (App.handleIngestSuccess a).effects = (App.fetchItems_begin a).effects := by
  have hb := (truthy_trim_eq_true_iff s.content).mpr h
  simp [IngestForm.resolved, IngestForm.handleSubmit_begin, IngestForm.handleSubmit_resume,
    App.handleIngestSuccess, App.fetchItems_begin, hb]

/-- Witness of C12 on the note form of scenario A. -/
theorem ingest_success_clears_form_witness :
    ¬ specBlank sampleNoteForm.content ∧
    (IngestForm.resolved true (Except.ok sampleMilk) sampleNoteForm).state =
      IngestForm.init ∧
    (IngestForm.resolved true (Except.ok sampleMilk) sampleNoteForm).effects =
      [Effect.onSuccess] :=
  ⟨(truthy_trim_eq_true_iff sampleNoteForm.content).mp (by decide), by decide,
    (ingest_success_clears_form sampleNoteForm sampleMilk sampleAppState
      ((truthy_trim_eq_true_iff sampleNoteForm.content).mp (by decide))).2.2.2.2.1⟩

/-- C13: when the `ingestContent` call of a submission with non-blank content
fails with message `m`, the form keeps `content`, `noteUrl` and `sourceType`
as entered, has `error = m` and `loading = false`; the failure has no effect
at all (no `onSuccess`, no further request), and the submission issued
exactly one request. -/
theorem ingest_failure_keeps_input (s : IngestFormState) (error : JsError) (onSuccess : Bool)
    (h : ¬ specBlank s.content) :
    (IngestForm.resolved onSuccess (Except.error error) s).state.content = s.content ∧
    (IngestForm.resolved onSuccess (Except.error error) s).state.noteUrl = s.noteUrl ∧
    (IngestForm.resolved onSuccess (Except.error error) s).state.sourceType = s.sourceType ∧
    (IngestForm.resolved onSuccess (Except.error error) s).state.error = error.message ∧
    (IngestForm.resolved onSuccess (Except.error error) s).state.loading = false ∧
    (IngestForm.resolved onSuccess (Except.error error) s).effects = [] ∧
    requestCount (IngestForm.handleSubmit_begin s).effects = 1 := by
  have hb := (truthy_trim_eq_true_iff s.content).mpr h
  simp [IngestForm.resolved, IngestForm.handleSubmit_begin, IngestForm.handleSubmit_resume,
    requestCount, Effect.isRequest, hb]

/-- Witness of C13: the note form failing with `Network Error`. -/
theorem ingest_failure_keeps_input_witness :
    ¬ specBlank sampleNoteForm.content ∧
    (IngestForm.resolved true (Except.error ⟨"Network Error"⟩) sampleNoteForm).state =
      { sampleNoteForm with error := "Network Error" } ∧
    (IngestForm.resolved true (Except.error ⟨"Network Error"⟩) sampleNoteForm).effects = [] :=
  ⟨(truthy_trim_eq_true_iff sampleNoteForm.content).mp (by decide), by decide,
    (ingest_failure_keeps_input sampleNoteForm ⟨"Network Error"⟩ true
      ((truthy_trim_eq_true_iff sampleNoteForm.content).mp (by decide))).2.2.2.2.2.1⟩

/-! ## Query workflow -/

/-- C14: submitting a question that is empty or whitespace-only, in
`QueryModal` and in `QueryInterface` alike, sets `error` to
`Please enter a question`, issues no request, and leaves `question`, `result`
and `loading` unchanged. -/
theorem query_blank_question_rejected (item : Item) (sel : Option Item) (s : QueryState)
    (h : specBlank s.question) :
    ((QueryModal.handleSubmit_begin item s).state =
        { s with error := "Please enter a question" } ∧
      (∀ call, Effect.request call ∉ (QueryModal.handleSubmit_begin item s).effects) ∧
      (QueryModal.handleSubmit_begin item s).settled = Settled.fulfilled) ∧
    ((QueryInterface.handleSubmit_begin sel s).state =
        { s with error := "Please enter a question" } ∧
      (∀ call, Effect.request call ∉ (QueryInterface.handleSubmit_begin sel s).effects) ∧
      (QueryInterface.handleSubmit_begin sel s).settled = Settled.fulfilled) := by
  have hb := (truthy_trim_eq_false_iff s.question).mpr h
  simp [QueryModal.handleSubmit_begin, QueryInterface.handleSubmit_begin, hb]

/-- Witness of C14: a question of three blanks while an answer is shown. -/
theorem query_blank_question_rejected_witness :
    specBlank sampleBlankQuestion.question ∧
    (QueryModal.handleSubmit_begin sampleMilk sampleBlankQuestion).state =
      ⟨"   ", false, "Please enter a question", some sampleAnswer⟩ ∧
    (QueryInterface.handleSubmit_begin none sampleBlankQuestion).state =
      ⟨"   ", false, "Please enter a question", some sampleAnswer⟩ :=
  ⟨(truthy_trim_eq_false_iff sampleBlankQuestion.question).mp (by decide),
    (query_blank_question_rejected sampleMilk none sampleBlankQuestion
      ((truthy_trim_eq_false_iff sampleBlankQuestion.question).mp (by decide))).1.1,
    by decide⟩

/-- C15 (the code at the failing input): with `sampleMilk` selected,
`QueryInterface` sends the question with `item_id: null`, while `QueryModal`
opened on the same item sends `item_id: "1"`. -/
theorem queryInterface_request_has_no_item_id :
    (QueryInterface.handleSubmit_begin (some sampleMilk) sampleAsking).effects =
      [Effect.preventDefault, Effect.request (Call.queryKnowledge "What did I buy?" none)] ∧
    (Call.toRequest (Call.queryKnowledge "What did I buy?" none)).body =
      [("question", JsonValue.str "What did I buy?"), ("item_id", JsonValue.null)] ∧
    (QueryModal.handleSubmit_begin sampleMilk sampleAsking).effects =
      [Effect.preventDefault,
       Effect.request (Call.queryKnowledge "What did I buy?" (some "1"))] ∧
    (Call.toRequest (Call.queryKnowledge "What did I buy?" (some "1"))).body =
      [("question", JsonValue.str "What did I buy?"), ("item_id", JsonValue.str "1")] := by
  decide

/-- C16 (as stated, refuted): `QueryInterface` showing the answer of scenario
C keeps that answer when the selected item changes to no item. -/
theorem queryInterface_keeps_answer_on_deselect :
    (QueryInterface.selectedItemEffect none sampleAnswered).result = some sampleAnswer ∧
    (QueryInterface.selectedItemEffect none sampleAnswered).result ≠ none := by
  decide

/-- C16 (amended): in `QueryInterface` a change of the selected item to an
item clears `question`, `result` and `error` whatever they held and leaves
`loading` alone, while a change to no item changes nothing; `QueryModal` has
no reset of its own, starts with no result and no error when mounted, and is
rendered by `App` exactly while an item is selected. -/
theorem selected_item_change_resets (s : QueryState) (item : Item) (a : AppState) :
    (QueryInterface.selectedItemEffect (some item) s).result = none ∧
    (QueryInterface.selectedItemEffect (some item) s).error = "" ∧
    (QueryInterface.selectedItemEffect (some item) s).question = "" ∧
    (QueryInterface.selectedItemEffect (some item) s).loading = s.loading ∧
    QueryInterface.selectedItemEffect none s = s ∧
    QueryState.init.result = none ∧ QueryState.init.error = "" ∧
    (App.rendersQueryModal a = true ↔ a.selectedItem ≠ none) := by
  refine ⟨rfl, rfl, rfl, rfl, rfl, rfl, rfl, ?_⟩
  simp [App.rendersQueryModal, Option.isSome_iff_ne_none]

/-- C17 (as stated, refuted): a second `submit` delivered while `loading` is
true, the submit button being disabled, is not ignored: `handleSubmit` issues
a second call, and two calls of the instance are in flight, in `IngestForm`,
`QueryModal` and `QueryInterface` alike. -/
theorem second_submit_issues_second_call :
    (IngestForm.run true [IngestEvent.setContent "Buy milk", IngestEvent.submit]).state.loading =
      true ∧
    IngestForm.submitDisabled
      (IngestForm.run true [IngestEvent.setContent "Buy milk", IngestEvent.submit]).state = true ∧
    (IngestForm.run true [IngestEvent.setContent "Buy milk", IngestEvent.submit]).inFlight = 1 ∧
    (IngestForm.run true sampleDoubleSubmit).inFlight = 2 ∧
    (QueryModal.run sampleMilk sampleDoubleAsk).inFlight = 2 ∧
    (QueryInterface.run none sampleDoubleAsk).inFlight = 2 ∧
    requestCount (IngestForm.handleSubmit_begin { sampleNoteForm with loading := true }).effects =
      1 := by
  decide

/-- C17 (amended): in `IngestForm`, `QueryModal` and `QueryInterface` a
submission whose text is not blank sets `loading` to true and issues exactly
one gateway call, in whatever state it is made; the settling of the call sets
`loading` to false and issues none; the submit button is disabled whenever
`loading` is true. In every run in which no `submit` is delivered while the
submit button is disabled, `loading` is true exactly when one call of the
instance is in flight and false exactly when none is, and never more than one
call is in flight. -/
theorem single_flight_while_submit_withheld :
    (∀ (onSuccess : Bool) (s : IngestFormState) (r : Except JsError Item),
      (¬ specBlank s.content →
        (IngestForm.handleSubmit_begin s).state.loading = true ∧
        requestCount (IngestForm.handleSubmit_begin s).effects = 1) ∧
      (IngestForm.handleSubmit_resume onSuccess r s).state.loading = false ∧
      requestCount (IngestForm.handleSubmit_resume onSuccess r s).effects = 0 ∧
      (s.loading = true → IngestForm.submitDisabled s = true)) ∧
    (∀ (item : Item) (sel : Option Item) (s : QueryState) (r : Except JsError QueryResult),
      (¬ specBlank s.question →
        (QueryModal.handleSubmit_begin item s).state.loading = true ∧
        requestCount (QueryModal.handleSubmit_begin item s).effects = 1 ∧
        (QueryInterface.handleSubmit_begin sel s).state.loading = true ∧
        requestCount (QueryInterface.handleSubmit_begin sel s).effects = 1) ∧
      (Query.handleSubmit_resume r s).state.loading = false ∧
      requestCount (Query.handleSubmit_resume r s).effects = 0 ∧
      (s.loading = true →
        QueryModal.submitDisabled s = true ∧ QueryInterface.submitDisabled s = true)) ∧
    (∀ (onSuccess : Bool) (events : List IngestEvent),
      IngestForm.respectsDisabled onSuccess IngestForm.mount events = true →
      ((IngestForm.run onSuccess events).state.loading = true ↔
        (IngestForm.run onSuccess events).inFlight = 1) ∧
      ((IngestForm.run onSuccess events).state.loading = false ↔
        (IngestForm.run onSuccess events).inFlight = 0) ∧
      (IngestForm.run onSuccess events).inFlight ≤ 1) ∧
    (∀ (item : Item) (events : List QueryEvent),
      QueryModal.respectsDisabled item Query.mount events = true →
      ((QueryModal.run item events).state.loading = true ↔
        (QueryModal.run item events).inFlight = 1) ∧
      ((QueryModal.run item events).state.loading = false ↔
        (QueryModal.run item events).inFlight = 0) ∧
      (QueryModal.run item events).inFlight ≤ 1) ∧
    (∀ (selectedItem : Option Item) (events : List QueryEvent),
      QueryInterface.respectsDisabled selectedItem Query.mount events = true →
      ((QueryInterface.run selectedItem events).state.loading = true ↔
        (QueryInterface.run selectedItem events).inFlight = 1) ∧
      ((QueryInterface.run selectedItem events).state.loading = false ↔
        (QueryInterface.run selectedItem events).inFlight = 0) ∧
      (QueryInterface.run selectedItem events).inFlight ≤ 1) := by
  refine ⟨?_, ?_, ?_, ?_, ?_⟩
  · intro onSuccess s r
    refine ⟨?_, ?_, ?_, ?_⟩
    · intro h
      have hb := (truthy_trim_eq_true_iff s.content).mpr h
      simp [IngestForm.handleSubmit_begin, requestCount, Effect.isRequest, hb]
    · cases r <;> simp [IngestForm.handleSubmit_resume]
    · cases r <;> cases onSuccess <;>
        simp [IngestForm.handleSubmit_resume, requestCount, Effect.isRequest]
    · intro hl
      simp [IngestForm.submitDisabled, hl]
  · intro item sel s r
    refine ⟨?_, ?_, ?_, ?_⟩
    · intro h
      have hb := (truthy_trim_eq_true_iff s.question).mpr h
      simp [QueryModal.handleSubmit_begin, QueryInterface.handleSubmit_begin, requestCount,
        Effect.isRequest, hb]
    · cases r <;> simp [Query.handleSubmit_resume]
    · cases r <;> simp [Query.handleSubmit_resume, requestCount]
    · intro hl
      simp [QueryModal.submitDisabled, QueryInterface.submitDisabled, hl]
  · intro onSuccess events hp
    exact singleFlight_facts_ingest _
      (ingestForm_run_singleFlight onSuccess events IngestForm.mount (Or.inr ⟨rfl, rfl⟩) hp)
  · intro item events hp
    exact singleFlight_facts_query _
      (queryModal_run_singleFlight item events Query.mount (Or.inr ⟨rfl, rfl⟩) hp)
  · intro selectedItem events hp
    exact singleFlight_facts_query _
      (queryInterface_run_singleFlight selectedItem events Query.mount (Or.inr ⟨rfl, rfl⟩) hp)

/-- Witness of C17 (amended): two submissions of an `IngestForm`, the second
made after the first has settled, leave one call in flight. -/
theorem single_flight_while_submit_withheld_witness :
    IngestForm.respectsDisabled true IngestForm.mount sampleTwoIngests = true ∧
    IngestForm.respectsDisabled true IngestForm.mount sampleDoubleSubmit = false ∧
    (IngestForm.run true sampleTwoIngests).state.loading = true ∧
    (IngestForm.run true sampleTwoIngests).inFlight = 1 ∧
    (IngestForm.run true sampleTwoIngests).inFlight ≤ 1 :=
  ⟨by decide, by decide, by decide, by decide,
    (single_flight_while_submit_withheld.2.2.1 true sampleTwoIngests (by decide)).2.2⟩

/-- C18: when the query call of a question that is not blank succeeds with
response `R`, the workflow ends holding `result = R` (the same answer and
sources), `error = ""` and `loading = false`, in `QueryModal` and in
`QueryInterface` alike; the question of scenario C answered with `Milk` and
one source ends in that state. -/
theorem query_success_holds_result (item : Item) (sel : Option Item) (s : QueryState)
    (R : QueryResult) (h : ¬ specBlank s.question) :
    (QueryModal.resolved item (Except.ok R) s).state = ⟨s.question, false, "", some R⟩ ∧
    (QueryInterface.resolved sel (Except.ok R) s).state = ⟨s.question, false, "", some R⟩ ∧
    (QueryModal.resolved sampleMilk (Except.ok sampleAnswer) sampleAsking).state.result =
      some ⟨"Milk", [⟨some "1", some "Buy milk", some "note", none, some "T"⟩]⟩ := by
  have hb := (truthy_trim_eq_true_iff s.question).mpr h
  refine ⟨?_, ?_, by decide⟩
  · simp [QueryModal.resolved, QueryModal.handleSubmit_begin, Query.handleSubmit_resume, hb]
  · simp [QueryInterface.resolved, QueryInterface.handleSubmit_begin,
      Query.handleSubmit_resume, hb]

/-- Witness of C18 on scenario C. -/
theorem query_success_holds_result_witness :
    ¬ specBlank sampleAsking.question ∧
    (QueryModal.resolved sampleMilk (Except.ok sampleAnswer) sampleAsking).state =
      ⟨"What did I buy?", false, "", some sampleAnswer⟩ ∧
    (QueryInterface.resolved none (Except.ok sampleAnswer) sampleAsking).state =
      ⟨"What did I buy?", false, "", some sampleAnswer⟩ :=
  ⟨(truthy_trim_eq_true_iff sampleAsking.question).mp (by decide),
    (query_success_holds_result sampleMilk none sampleAsking sampleAnswer
      ((truthy_trim_eq_true_iff sampleAsking.question).mp (by decide))).1,
    by decide⟩

/-- C19 (as stated, refuted): a workflow showing the answer of scenario C in
which a new question is submitted and fails with `Server Error` ends with
that error and with no result: the earlier answer is gone, in `QueryModal`
and in `QueryInterface`. -/
theorem failed_query_drops_previous_result :
    sampleAnswered.result = some sampleAnswer ∧
    (QueryModal.resolved sampleMilk (Except.error ⟨"Server Error"⟩) sampleAnswered).state =
      ⟨"How much did it cost?", false, "Server Error", none⟩ ∧
    (QueryInterface.resolved none (Except.error ⟨"Server Error"⟩) sampleAnswered).state =
      ⟨"How much did it cost?", false, "Server Error", none⟩ ∧
    (QueryModal.resolved sampleMilk (Except.error ⟨"Server Error"⟩) sampleAnswered).state.result ≠
      some sampleAnswer := by
  decide

/-- C19 (amended): submitting a question that is not blank clears the result
before the call is made, so when that query fails with message `m` the
workflow ends with `error = m`, `loading = false` and no result, whatever
result it showed before. -/
theorem failed_query_leaves_no_result (item : Item) (sel : Option Item) (s : QueryState)
    (error : JsError) (h : ¬ specBlank s.question) :
    (QueryModal.handleSubmit_begin item s).state.result = none ∧
    (QueryInterface.handleSubmit_begin sel s).state.result = none ∧
    (QueryModal.resolved item (Except.error error) s).state =
      ⟨s.question, false, error.message, none⟩ ∧
    (QueryInterface.resolved sel (Except.error error) s).state =
      ⟨s.question, false, error.message, none⟩ := by
  have hb := (truthy_trim_eq_true_iff s.question).mpr h
  simp [QueryModal.resolved, QueryModal.handleSubmit_begin, QueryInterface.resolved,
    QueryInterface.handleSubmit_begin, Query.handleSubmit_resume, hb]

/-- Witness of C19 (amended) on the answered state of scenario C. -/
theorem failed_query_leaves_no_result_witness :
    ¬ specBlank sampleAnswered.question ∧
    (QueryModal.resolved sampleMilk (Except.error ⟨"Server Error"⟩) sampleAnswered).state =
      ⟨sampleAnswered.question, false, "Server Error", none⟩ :=
  ⟨(truthy_trim_eq_true_iff sampleAnswered.question).mp (by decide),
    (failed_query_leaves_no_result sampleMilk none sampleAnswered ⟨"Server Error"⟩
      ((truthy_trim_eq_true_iff sampleAnswered.question).mp (by decide))).2.2.1⟩

/-! ## Remote gateway -/

/-- C20 (as stated, refuted): a failed response whose detail is the empty
string is rejected with the message of the transport error, not with that
detail; one whose detail is the empty list is rejected with an empty message;
and one whose detail is a list of validation errors is rejected with
`[object Object]`, which is neither a detail string nor the message of the
transport error. -/
theorem non_text_detail_breaks_message :
    (responseErrorInterceptor sampleEmptyDetail).1.message = "Network Error" ∧
    (responseErrorInterceptor sampleEmptyListDetail).1.message = "" ∧
    (responseErrorInterceptor sampleValidationError).1.message = "[object Object]" ∧
    (responseErrorInterceptor sampleValidationError).1.message ≠
      sampleValidationError.message := by
  decide

/-- C20 (amended): the error the gateway rejects with carries the detail of
the failed response whenever that is a non-empty string; when the detail is
absent or falsy (`null`, `""`, `false`, zero) it carries the message of the
transport error, and when that is empty too the text `An error occurred`;
whenever the detail is absent, falsy or a string the message is not empty. -/
theorem gateway_error_message (e : AxiosError) :
    (∀ d : String, e.detail = some (Json.str d) → d ≠ "" →
      (responseErrorInterceptor e).1.message = d) ∧
    ((e.detail = none ∨ ∃ j, e.detail = some j ∧ j.truthy = false) → e.message ≠ "" →
      (responseErrorInterceptor e).1.message = e.message) ∧
    ((e.detail = none ∨ ∃ j, e.detail = some j ∧ j.truthy = false) → e.message = "" →
      (responseErrorInterceptor e).1.message = "An error occurred") ∧
    ((e.detail = none ∨ ∃ j, e.detail = some j ∧ (j.truthy = false ∨ ∃ d, j = Json.str d)) →
      (responseErrorInterceptor e).1.message ≠ "") := by
  have hempty : truthy "" = false := by decide
  have hfall : (e.detail = none ∨ ∃ j, e.detail = some j ∧ j.truthy = false) →
      errorValue e =
        if truthy e.message then Json.str e.message else Json.str "An error occurred" := by
    rintro (hd | ⟨j, hd, hj⟩)
    · simp [errorValue, hd]
    · simp [errorValue, hd, hj]
  have hne_fall : (e.detail = none ∨ ∃ j, e.detail = some j ∧ j.truthy = false) →
      (responseErrorInterceptor e).1.message ≠ "" := by
    intro hd
    simp only [responseErrorInterceptor, errorMessage, hfall hd]
    by_cases ht : truthy e.message = true
    · simpa [ht, Json.toJsString] using (truthy_iff_ne_empty e.message).mp ht
    · simp [ht, Json.toJsString]
  refine ⟨?_, ?_, ?_, ?_⟩
  · intro d hd hne
    have ht : (Json.str d).truthy = true := (truthy_iff_ne_empty d).mpr hne
    simp [responseErrorInterceptor, errorMessage, errorValue, hd, ht, Json.toJsString]
  · intro hd hm
    have ht := (truthy_iff_ne_empty e.message).mpr hm
    simp [responseErrorInterceptor, errorMessage, hfall hd, ht, Json.toJsString]
  · intro hd hm
    simp [responseErrorInterceptor, errorMessage, hfall hd, hm, hempty, Json.toJsString]
  · rintro (hd | ⟨j, hd, hj | ⟨d, hj⟩⟩)
    · exact hne_fall (Or.inl hd)
    · exact hne_fall (Or.inr ⟨j, hd, hj⟩)
    · by_cases ht : (Json.str d).truthy = true
      · have hne : d ≠ "" := (truthy_iff_ne_empty d).mp ht
        simpa [responseErrorInterceptor, errorMessage, errorValue, hd, hj, ht,
          Json.toJsString] using hne
      · exact hne_fall (Or.inr ⟨j, hd, by simpa [hj] using ht⟩)

/-- Witness of C20 (amended): a 404 with detail `not found`, a transport
failure without response, and a rejection with an empty detail and no
message. -/
theorem gateway_error_message_witness :
    (responseErrorInterceptor sampleNotFound).1.message = "not found" ∧
    (responseErrorInterceptor ⟨none, "Network Error"⟩).1.message = "Network Error" ∧
    (responseErrorInterceptor ⟨some (Json.str ""), ""⟩).1.message = "An error occurred" ∧
    (responseErrorInterceptor sampleEmptyDetail).1.message ≠ "" :=
  ⟨(gateway_error_message sampleNotFound).1 "not found" rfl (by decide),
    (gateway_error_message ⟨none, "Network Error"⟩).2.1 (Or.inl rfl) (by decide),
    (gateway_error_message ⟨some (Json.str ""), ""⟩).2.2.1
      (Or.inr ⟨Json.str "", rfl, by decide⟩) rfl,
    (gateway_error_message sampleEmptyDetail).2.2.2
      (Or.inr ⟨Json.str "", rfl, Or.inr ⟨"", rfl⟩⟩)⟩

/-! ## Views, health polling and the mounted `App` -/

/-- C21 (the code on a malformed url): when the url of an item or of a cited
source is a non-empty string that the URL constructor rejects, the render of
`ItemsList` for any list holding the item throws, the render of `QueryModal`
opened on the item throws, and the renders of `QueryModal` and
`QueryInterface` for any result citing the source throw: no card and no link
are produced. -/
theorem malformed_url_aborts_render (host : Host) (u : String) (e : JsError)
    (hne : u ≠ "") (hbad : host.hostname u = Except.error e) :
    (∀ (item : Item) (items : List Item), item.url = some u → item ∈ items →
      ∃ e', ItemsList.render host items false = Except.error e') ∧
    (∀ (item : Item) (s : QueryState), item.url = some u →
      QueryModal.renderLinks host item s = Except.error e) ∧
    (∀ (source : Source) (R : QueryResult) (item : Item) (s : QueryState),
      source.url = some u → source ∈ R.sources →
      (∃ e', QueryModal.renderLinks host item { s with result := some R } = Except.error e') ∧
      (∃ e', QueryInterface.renderLinks host { s with result := some R } = Except.error e')) := by
  refine ⟨?_, ?_, ?_⟩
  · intro item items hu hmem
    obtain ⟨e', he'⟩ := cards_error_of_mem host items item hmem
      ⟨e, card_error host item u e hu hne hbad⟩
    have hnil : items.isEmpty = false := by
      cases items with
      | nil => simp at hmem
      | cons x xs => rfl
    exact ⟨e', by simp [ItemsList.render, hnil, he']⟩
  · intro item s hu
    simp [QueryModal.renderLinks, hu, hostnameLink_error host u e hne hbad]
  · intro source R item s hu hmem
    obtain ⟨e', he'⟩ := sourceLinks_error_of_mem host R.sources source hmem
      ⟨e, by rw [hu]; exact hostnameLink_error host u e hne hbad⟩
    constructor
    · cases hctx : Query.hostnameLink host item.url with
      | error e0 => exact ⟨e0, by simp [QueryModal.renderLinks, hctx]⟩
      | ok l => exact ⟨e', by simp [QueryModal.renderLinks, hctx, Query.resultLinks, he']⟩
    · exact ⟨e', by simp [QueryInterface.renderLinks, Query.resultLinks, he']⟩

/-- Witness of C21: a note whose reference url `example.com` was typed
without a scheme makes the whole list fail to render. -/
theorem malformed_url_aborts_render_witness :
    "example.com" ≠ "" ∧
    sampleHost.hostname "example.com" = Except.error ⟨"Invalid URL"⟩ ∧
    ItemsList.render sampleHost [sampleLinkedNote, sampleBadUrlNote] false =
      Except.error ⟨"Invalid URL"⟩ ∧
    QueryModal.renderLinks sampleHost sampleBadUrlNote QueryState.init =
      Except.error ⟨"Invalid URL"⟩ ∧
    QueryInterface.renderLinks sampleHost sampleBadSourceState = Except.error ⟨"Invalid URL"⟩ :=
  ⟨by decide, by decide, by decide,
    (malformed_url_aborts_render sampleHost "example.com" ⟨"Invalid URL"⟩ (by decide)
      (by decide)).2.1 sampleBadUrlNote QueryState.init rfl,
    by decide⟩

/-- C22: `checkApiHealth` changes no state when it starts; when `healthCheck`
settles it sets the status to `healthy` exactly on success and to `error`
exactly on failure, its promise is fulfilled in both cases, it has no other
effect, and the collection, the displayed list, `loading`, the filter state
and the selected item are as before. -/
theorem checkApiHealth_status (s : AppState) (r : Except JsError Unit) :
    (App.checkApiHealth_begin s).state = s ∧
    ((App.checkApiHealth_resume r s).state.apiStatus = "healthy" ↔ ∃ u, r = Except.ok u) ∧
    ((App.checkApiHealth_resume r s).state.apiStatus = "error" ↔ ∃ e, r = Except.error e) ∧
    (App.checkApiHealth_resume r s).settled = Settled.fulfilled ∧
    (App.checkApiHealth_resume r s).effects = [] ∧
    (App.checkApiHealth_resume r s).state.items = s.items ∧
    (App.checkApiHealth_resume r s).state.filteredItems = s.filteredItems ∧
    (App.checkApiHealth_resume r s).state.loading = s.loading ∧
    (App.checkApiHealth_resume r s).state.filterType = s.filterType ∧
    (App.checkApiHealth_resume r s).state.searchQuery = s.searchQuery ∧
    (App.checkApiHealth_resume r s).state.selectedItem = s.selectedItem := by
  cases r with
  | ok u => simp [App.checkApiHealth_begin, App.checkApiHealth_resume]
  | error e => simp [App.checkApiHealth_begin, App.checkApiHealth_resume]

/-- C23: when two refreshes are in flight and both succeed, the collection
ends as the data of the one that settled last, in either order; after any
sequence of settled refreshes, and after any sequence of events of the
mounted `App`, the collection is the data of the most recently settled
successful refresh, or the collection it started from when none succeeded. -/
theorem refresh_last_response_wins (toLowerCase : String → String) (s : AppState)
    (D1 D2 : List Item) (rs : List (Except JsError (List Item))) (events : List AppEvent)
    (w : AppInstance) :
    (App.fetchItems_begin (App.fetchItems_begin s).state).state = s ∧
    (App.settleAll [Except.ok D1, Except.ok D2]
      (App.fetchItems_begin (App.fetchItems_begin s).state).state).items = D2 ∧
    (App.settleAll [Except.ok D2, Except.ok D1]
      (App.fetchItems_begin (App.fetchItems_begin s).state).state).items = D1 ∧
    (App.settleAll rs s).items = (specLastSuccess rs).getD s.items ∧
    (events.foldl (App.dispatch toLowerCase) w).state.items =
      (specLastRefresh events).getD w.state.items :=
  ⟨rfl, rfl, rfl, settleAll_items rs s, foldl_dispatch_items toLowerCase events w⟩

/-- C24 (as stated, refuted): with the `note` filter active, right after a
refresh succeeds with a note and a url item the list handed to the view is
the whole response, while the projection of the new collection is the note
alone. -/
theorem refresh_shows_unfiltered_response :
    (App.run asciiLowerCase sampleFilteredRefresh).state.filterType = "note" ∧
    (App.run asciiLowerCase sampleFilteredRefresh).state.filteredItems =
      [sampleHello, sampleShopping] ∧
    project asciiLowerCase (App.run asciiLowerCase sampleFilteredRefresh).state.items
      (App.run asciiLowerCase sampleFilteredRefresh).state.filterType
      (App.run asciiLowerCase sampleFilteredRefresh).state.searchQuery = [sampleHello] ∧
    (App.run asciiLowerCase sampleFilteredRefresh).state.filteredItems ≠
      project asciiLowerCase (App.run asciiLowerCase sampleFilteredRefresh).state.items
        (App.run asciiLowerCase sampleFilteredRefresh).state.filterType
        (App.run asciiLowerCase sampleFilteredRefresh).state.searchQuery := by
  decide

/-- C24 (amended): in every state the mounted `App` reaches in which the
filtering effect is not due, the list handed to the view is the projection of
the collection under the filter state; and whatever state it has reached,
once the filtering effect has run the effect is not due and the list is that
projection. -/
theorem filtered_items_in_step (toLowerCase : String → String) (events : List AppEvent) :
    ((App.run toLowerCase events).filterEffectDue = false →
      (App.run toLowerCase events).state.filteredItems =
        project toLowerCase (App.run toLowerCase events).state.items
          (App.run toLowerCase events).state.filterType
          (App.run toLowerCase events).state.searchQuery) ∧
    (App.run toLowerCase (events ++ [AppEvent.filterEffect])).filterEffectDue = false ∧
    (App.run toLowerCase (events ++ [AppEvent.filterEffect])).state.filteredItems =
      project toLowerCase (App.run toLowerCase (events ++ [AppEvent.filterEffect])).state.items
        (App.run toLowerCase (events ++ [AppEvent.filterEffect])).state.filterType
        (App.run toLowerCase (events ++ [AppEvent.filterEffect])).state.searchQuery := by
  have hdue : (App.run toLowerCase (events ++ [AppEvent.filterEffect])).filterEffectDue = false := by
    simp only [App.run, List.foldl_append, List.foldl_cons, List.foldl_nil, App.dispatch]
    split_ifs with h
    · rfl
    · simpa using h
  exact ⟨run_inStep toLowerCase events, hdue,
    run_inStep toLowerCase (events ++ [AppEvent.filterEffect]) hdue⟩

/-- Witness of C24 (amended): after the refresh of the counterexample the
effect is due; once it has run the view shows the note alone. -/
theorem filtered_items_in_step_witness :
    (App.run asciiLowerCase sampleFilteredRefresh).filterEffectDue = true ∧
    (App.run asciiLowerCase (sampleFilteredRefresh ++ [AppEvent.filterEffect])).filterEffectDue =
      false ∧
    (App.run asciiLowerCase (sampleFilteredRefresh ++ [AppEvent.filterEffect])).state.filteredItems =
      [sampleHello] ∧
    (App.run asciiLowerCase (sampleFilteredRefresh ++ [AppEvent.filterEffect])).state.filteredItems =
      project asciiLowerCase
        (App.run asciiLowerCase (sampleFilteredRefresh ++ [AppEvent.filterEffect])).state.items
        (App.run asciiLowerCase (sampleFilteredRefresh ++ [AppEvent.filterEffect])).state.filterType
        (App.run asciiLowerCase (sampleFilteredRefresh ++ [AppEvent.filterEffect])).state.searchQuery :=
  ⟨by decide, by decide, by decide,
    (filtered_items_in_step asciiLowerCase sampleFilteredRefresh).2.2⟩

/-- C25: the search stage tests the trimmed text for blankness but matches the
untrimmed text: for a collection of one url-less item with content `hello`,
the search text ` hello` (whose trim is `hello`) projects to nothing while
`hello` projects to the whole collection. -/
theorem search_matches_untrimmed_text (toLowerCase : String → String)
    (hl : AsciiFaithful toLowerCase) (item : Item) (hc : item.content = "hello")
    (hu : item.url = none) :
    trim " hello" = "hello" ∧
    project toLowerCase [item] "all" " hello" = [] ∧
    project toLowerCase [item] "all" "hello" = [item] ∧
    project toLowerCase [item] "all" " hello" ≠
      project toLowerCase [item] "all" (trim " hello") := by
  have htrim : trim " hello" = "hello" := by decide
  have hq1 : toLowerCase " hello" = " hello" := by
    rw [hl " hello" (by decide)]; decide
  have hq2 : toLowerCase "hello" = "hello" := by
    rw [hl "hello" (by decide)]; decide
  have hs1 : ¬ specBlank " hello" := (truthy_trim_eq_true_iff " hello").mp (by decide)
  have hs2 : ¬ specBlank "hello" := (truthy_trim_eq_true_iff "hello").mp (by decide)
  have hcat : categoryStage [item] "all" = [item] := by simp [categoryStage]
  have hi1 : includes "hello" " hello" = false := by decide
  have hi2 : includes "hello" "hello" = true := by decide
  have h1 : project toLowerCase [item] "all" " hello" = [] := by
    rw [project_of_not_blank toLowerCase [item] "all" " hello" hs1, hcat]
    simp [searchPredicate, hc, hu, hq1, hq2, hi1]
  have h2 : project toLowerCase [item] "all" "hello" = [item] := by
    rw [project_of_not_blank toLowerCase [item] "all" "hello" hs2, hcat]
    simp [searchPredicate, hc, hu, hq2, hi2]
  refine ⟨htrim, h1, h2, ?_⟩
  rw [htrim, h1, h2]
  simp

/-- Witness of C25 with the ASCII case mapping. -/
theorem search_matches_untrimmed_text_witness :
    AsciiFaithful asciiLowerCase ∧
    project asciiLowerCase [sampleHelloOnly] "all" " hello" = [] ∧
    project asciiLowerCase [sampleHelloOnly] "all" "hello" = [sampleHelloOnly] :=
  ⟨asciiFaithful_asciiLowerCase,
    (search_matches_untrimmed_text asciiLowerCase asciiFaithful_asciiLowerCase
      sampleHelloOnly rfl rfl).2.1,
    by decide⟩

/-- C26: for a timestamp that parses, with `d` the milliseconds from it to
now, `formatDate` returns `Just now` exactly when `d < 60000` (a negative `d`
included), `<m>m ago` with `m = floor(d / 60000)`, `1 ≤ m ≤ 59`, exactly when
`60000 ≤ d < 3600000`, `<h>h ago` with `h = floor(d / 3600000)`,
`1 ≤ h ≤ 23`, exactly when `3600000 ≤ d < 86400000`, `<k>d ago` with
`k = floor(d / 86400000)`, `1 ≤ k ≤ 6`, exactly when
`86400000 ≤ d < 604800000`, and the locale date exactly when
`604800000 ≤ d`, the locale date being a plain date text. It returns `""` for
a missing or empty timestamp and `Invalid date` for one that does not parse;
being a total function it never throws. -/
theorem formatDate_ranges (host : Host) (ts : String) (date : Int) (hts : ts ≠ "")
    (hparse : host.dateParse ts = some date)
    (hloc : specPlainDate (host.toLocaleDateString date)) :
    (ItemsList.formatDate host (some ts) = "Just now" ↔ host.now - date < 60000) ∧
    (ItemsList.formatDate host (some ts) =
        toString ((host.now - date).toNat / 60000) ++ "m ago" ↔
      60000 ≤ host.now - date ∧ host.now - date < 3600000) ∧
    (ItemsList.formatDate host (some ts) =
        toString ((host.now - date).toNat / 3600000) ++ "h ago" ↔
      3600000 ≤ host.now - date ∧ host.now - date < 86400000) ∧
    (ItemsList.formatDate host (some ts) =
        toString ((host.now - date).toNat / 86400000) ++ "d ago" ↔
      86400000 ≤ host.now - date ∧ host.now - date < 604800000) ∧
    (ItemsList.formatDate host (some ts) = host.toLocaleDateString date ↔
      604800000 ≤ host.now - date) ∧
    (60000 ≤ host.now - date ∧ host.now - date < 3600000 →
      1 ≤ (host.now - date).toNat / 60000 ∧ (host.now - date).toNat / 60000 ≤ 59) ∧
    (3600000 ≤ host.now - date ∧ host.now - date < 86400000 →
      1 ≤ (host.now - date).toNat / 3600000 ∧ (host.now - date).toNat / 3600000 ≤ 23) ∧
    (86400000 ≤ host.now - date ∧ host.now - date < 604800000 →
      1 ≤ (host.now - date).toNat / 86400000 ∧ (host.now - date).toNat / 86400000 ≤ 6) ∧
    (0 ≤ host.now - date →
      (((host.now - date).toNat / 60000 : Nat) : Int) = (host.now - date) / 60000 ∧
      (((host.now - date).toNat / 3600000 : Nat) : Int) = (host.now - date) / 3600000 ∧
      (((host.now - date).toNat / 86400000 : Nat) : Int) = (host.now - date) / 86400000) ∧
    ItemsList.formatDate host none = "" ∧
    ItemsList.formatDate host (some "") = "" ∧
    (∀ other : String, other ≠ "" → host.dateParse other = none →
      ItemsList.formatDate host (some other) = "Invalid date") := by
  have hR := formatDate_of_parsed host ts date hts hparse
  have hJM : ∀ a : String, "Just now" ≠ a ++ "m ago" := fun a =>
    justNow_ne_append a "m ago" (by decide) (by decide)
  have hJH : ∀ a : String, "Just now" ≠ a ++ "h ago" := fun a =>
    justNow_ne_append a "h ago" (by decide) (by decide)
  have hJD : ∀ a : String, "Just now" ≠ a ++ "d ago" := fun a =>
    justNow_ne_append a "d ago" (by decide) (by decide)
  have hMH : ∀ a b : String, a ++ "m ago" ≠ b ++ "h ago" := fun a b =>
    append_right_ne a b "m ago" "h ago" (by decide) (by decide)
  have hMD : ∀ a b : String, a ++ "m ago" ≠ b ++ "d ago" := fun a b =>
    append_right_ne a b "m ago" "d ago" (by decide) (by decide)
  have hHD : ∀ a b : String, a ++ "h ago" ≠ b ++ "d ago" := fun a b =>
    append_right_ne a b "h ago" "d ago" (by decide) (by decide)
  have hLM : ∀ a : String, host.toLocaleDateString date ≠ a ++ "m ago" := fun a =>
    plainDate_ne_ago _ a "m ago" hloc ⟨"m", by decide⟩
  have hLH : ∀ a : String, host.toLocaleDateString date ≠ a ++ "h ago" := fun a =>
    plainDate_ne_ago _ a "h ago" hloc ⟨"h", by decide⟩
  have hLD : ∀ a : String, host.toLocaleDateString date ≠ a ++ "d ago" := fun a =>
    plainDate_ne_ago _ a "d ago" hloc ⟨"d", by decide⟩
  have hLJ : host.toLocaleDateString date ≠ "Just now" := hloc.1
  refine ⟨?_, ?_, ?_, ?_, ?_, by omega, by omega, by omega, by omega, rfl, rfl, ?_⟩
  · by_cases h1 : host.now - date < 60000
    · rw [hR, if_pos h1]
      exact iff_of_true rfl h1
    · refine iff_of_false ?_ h1
      rw [hR, if_neg h1]
      split_ifs
      · exact (hJM _).symm
      · exact (hJH _).symm
      · exact (hJD _).symm
      · exact hLJ
  · by_cases h2 : 60000 ≤ host.now - date ∧ host.now - date < 3600000
    · rw [hR, if_neg (by omega), if_pos h2.2]
      exact iff_of_true rfl h2
    · refine iff_of_false ?_ h2
      rw [hR]
      split_ifs with c1 c2 c3 c4
      · exact hJM _
      · exact absurd ⟨by omega, c2⟩ h2
      · exact (hMH _ _).symm
      · exact (hMD _ _).symm
      · exact hLM _
  · by_cases h3 : 3600000 ≤ host.now - date ∧ host.now - date < 86400000
    · rw [hR, if_neg (by omega), if_neg (by omega), if_pos h3.2]
      exact iff_of_true rfl h3
    · refine iff_of_false ?_ h3
      rw [hR]
      split_ifs with c1 c2 c3 c4
      · exact hJH _
      · exact hMH _ _
      · exact absurd ⟨by omega, c3⟩ h3
      · exact (hHD _ _).symm
      · exact hLH _
  · by_cases h4 : 86400000 ≤ host.now - date ∧ host.now - date < 604800000
    · rw [hR, if_neg (by omega), if_neg (by omega), if_neg (by omega), if_pos h4.2]
      exact iff_of_true rfl h4
    · refine iff_of_false ?_ h4
      rw [hR]
      split_ifs with c1 c2 c3 c4
      · exact hJD _
      · exact hMD _ _
      · exact hHD _ _
      · exact absurd ⟨by omega, c4⟩ h4
      · exact hLD _
  · by_cases h5 : 604800000 ≤ host.now - date
    · rw [hR, if_neg (by omega), if_neg (by omega), if_neg (by omega), if_neg (by omega)]
      exact iff_of_true rfl h5
    · refine iff_of_false ?_ h5
      rw [hR]
      split_ifs with c1 c2 c3 c4
      · exact hLJ.symm
      · exact (hLM _).symm
      · exact (hLH _).symm
      · exact (hLD _).symm
      · exact absurd (by omega) h5
  · intro other hne hnone
    simp [ItemsList.formatDate, (truthy_iff_ne_empty other).mpr hne, hnone]

/-- Witness of C26: five minutes after the timestamp of `sampleHello` the
sample host shows `5m ago`. -/
theorem formatDate_ranges_witness :
    "2024-01-01T10:00:00" ≠ "" ∧
    sampleHost.dateParse "2024-01-01T10:00:00" = some 1704103200000 ∧
    specPlainDate (sampleHost.toLocaleDateString 1704103200000) ∧
    sampleHost.now - 1704103200000 = 300000 ∧
    ItemsList.formatDate sampleHost (some "2024-01-01T10:00:00") = "5m ago" ∧
    ItemsList.formatDate sampleHost (some sampleBadTimestamp) = "Invalid date" ∧
    (ItemsList.formatDate sampleHost (some "2024-01-01T10:00:00") =
        toString ((sampleHost.now - 1704103200000).toNat / 60000) ++ "m ago" ↔
      60000 ≤ sampleHost.now - 1704103200000 ∧ sampleHost.now - 1704103200000 < 3600000) :=
  ⟨by decide, by decide,
    ⟨by decide, fun pre =>
      append_right_ne "1/1/" pre "2024" " ago" (by decide) (by decide)⟩,
    by decide, by decide, by decide,
    (formatDate_ranges sampleHost "2024-01-01T10:00:00" 1704103200000 (by decide) (by decide)
      ⟨by decide, fun pre =>
        append_right_ne "1/1/" pre "2024" " ago" (by decide) (by decide)⟩).2.1⟩

end KnowledgeInbox
